import Mathlib

/-!
Shallow embedding of the Safety Deliberation Engine of
`src/tripartite_agi_complete.py`, together with theorems settling the
frozen claims about it.

Modelling conventions, used throughout:
* Python floats are modelled as exact rationals (`ℚ`); every literal in
  the source is an exact decimal, and every claim is an inequality or
  equality that is robust under this reading.
* Python dicts whose keys are fixed in the source are modelled as
  structures; dicts used as finite maps are modelled as association
  lists (`List (k × v)`), with `get`-with-default lookups.
* `str.lower()` is modelled characterwise with `Char.toLower`, which
  agrees with Python on the ASCII strings the program manipulates, and
  the substring operator `in` is modelled by an executable scan.
* Audit-only metadata (human-readable detail strings, timestamps taken
  with `time.time()`, log records) is dropped: no claim inspects it.
-/

namespace Tri

/-- Python `max(a, b)` on numbers. -/
def pyMax (a b : ℚ) : ℚ := max a b

/-- Python `min(a, b)` on numbers. -/
def pyMin (a b : ℚ) : ℚ := min a b

/-- `leadsWithL n h` : the char list `n` starts the char list `h`
(Python string slicing view of `str.startswith`). -/
def leadsWithL : List Char → List Char → Bool
  | [], _ => true
  | _ :: _, [] => false
  | a :: as, b :: bs => a == b && leadsWithL as bs

/-- `containsL n h` : the char list `n` occurs contiguously in `h`. -/
def containsL (n : List Char) : List Char → Bool
  | [] => leadsWithL n []
  | b :: bs => leadsWithL n (b :: bs) || containsL n bs

/-- Python `needle in haystack` on strings. -/
def strIn (needle hay : String) : Bool := containsL needle.toList hay.toList

/-- Python `str.lower()` (characterwise; agrees with CPython on ASCII). -/
def pyLower (s : String) : String := String.mk (s.toList.map Char.toLower)

/-- The ASCII apostrophe character, as a string. -/
def apos : String := String.singleton (Char.ofNat 39)

-- ===========================================================================
-- PART 3 of the source: GROUNDED HARM ONTOLOGY
-- ===========================================================================

/-- `class SeverityLevel(Enum)`. -/
inductive SeverityLevel
  | FATAL | GRIEVOUS | SEVERE | SIGNIFICANT | MODERATE | MINOR
  deriving DecidableEq, Repr

/-- `class HarmDimension(Enum)`. -/
inductive HarmDimension
  | PHYSICAL | PSYCHOLOGICAL | AUTONOMY | RELATIONAL | FINANCIAL
  | EXISTENTIAL | REPUTATIONAL | PRIVACY | DIGNITY | DEVELOPMENTAL
  deriving DecidableEq, Repr

/-- `class EntityType(Enum)`. -/
inductive EntityType
  | HUMAN | CHILD | SELF | ANIMAL | PROPERTY | COLLECTIVE
  | RELATIONSHIP | ENVIRONMENT
  deriving DecidableEq, Repr

/-- `class ExceptionType(Enum)`. -/
inductive ExceptionType
  | INFORMED_CONSENT | NECESSITY | PROPORTIONAL_DEFENSE | THERAPEUTIC
  | REQUESTED | TRIVIAL
  deriving DecidableEq, Repr

/-- Python `member.name` for `HarmDimension` (used by the checksum). -/
def HarmDimension.pyName : HarmDimension → String
  | .PHYSICAL => "PHYSICAL"
  | .PSYCHOLOGICAL => "PSYCHOLOGICAL"
  | .AUTONOMY => "AUTONOMY"
  | .RELATIONAL => "RELATIONAL"
  | .FINANCIAL => "FINANCIAL"
  | .EXISTENTIAL => "EXISTENTIAL"
  | .REPUTATIONAL => "REPUTATIONAL"
  | .PRIVACY => "PRIVACY"
  | .DIGNITY => "DIGNITY"
  | .DEVELOPMENTAL => "DEVELOPMENTAL"

/-- Python `member.name` for `EntityType` (used by the checksum). -/
def EntityType.pyName : EntityType → String
  | .HUMAN => "HUMAN"
  | .CHILD => "CHILD"
  | .SELF => "SELF"
  | .ANIMAL => "ANIMAL"
  | .PROPERTY => "PROPERTY"
  | .COLLECTIVE => "COLLECTIVE"
  | .RELATIONSHIP => "RELATIONSHIP"
  | .ENVIRONMENT => "ENVIRONMENT"

/-- Python `member.name` for `ExceptionType` (used by the checksum). -/
def ExceptionType.pyName : ExceptionType → String
  | .INFORMED_CONSENT => "INFORMED_CONSENT"
  | .NECESSITY => "NECESSITY"
  | .PROPORTIONAL_DEFENSE => "PROPORTIONAL_DEFENSE"
  | .THERAPEUTIC => "THERAPEUTIC"
  | .REQUESTED => "REQUESTED"
  | .TRIVIAL => "TRIVIAL"

/-- `DimensionSeverityWeight` (the text fields `description` and `examples`
are dropped: nothing in the engine reads them). -/
structure DimensionSeverityWeight where
  severity : SeverityLevel
  weight : ℚ
  deriving DecidableEq, Repr

/-- `HarmDimensionProfile` (the `grounding` text field is dropped). -/
structure HarmDimensionProfile where
  dimension : HarmDimension
  severity_weights : List DimensionSeverityWeight
  deriving DecidableEq, Repr

/-- `HarmDimensionProfile.get_weight`. -/
def HarmDimensionProfile.get_weight (p : HarmDimensionProfile)
    (severity : SeverityLevel) : ℚ :=
  match p.severity_weights.find? (fun sw => sw.severity == severity) with
  | some sw => sw.weight
  | none => 0.3

/-- `EntityTypeModifier` (the text field `justification` is dropped). -/
structure EntityTypeModifier where
  entity_type : EntityType
  modifier : ℚ
  inertia : ℚ
  deriving DecidableEq, Repr

/-- `ContextModifier`: levels are `(level_name, modifier)` pairs (the
per-level description text and the `grounding` field are dropped). -/
structure ContextModifier where
  name : String
  levels : List (String × ℚ)
  deriving DecidableEq, Repr

/-- `ExceptionDefinition` (the `grounding` text field is dropped). -/
structure ExceptionDefinition where
  exception_type : ExceptionType
  max_harm_reduction : ℚ
  verification_requirements : List String
  requires_all : Bool := true
  deriving DecidableEq, Repr

namespace GroundedHarmOntology

/-- `GroundedHarmOntology.VETO_THRESHOLD = 0.40`. -/
def VETO_THRESHOLD : ℚ := 0.40

/-- `GroundedHarmOntology.CAUTION_THRESHOLD = 0.25`. -/
def CAUTION_THRESHOLD : ℚ := 0.25

/-- `GroundedHarmOntology.NOTABLE_THRESHOLD = 0.15`. -/
def NOTABLE_THRESHOLD : ℚ := 0.15

/-- `_build_dimension_profiles` (weights transcribed from the source;
insertion order of the Python dict preserved). -/
def buildDimensionProfiles : List (HarmDimension × HarmDimensionProfile) :=
  [ (.PHYSICAL,
     { dimension := .PHYSICAL,
       severity_weights :=
         [ ⟨.FATAL, 1.0⟩, ⟨.GRIEVOUS, 0.9⟩, ⟨.SEVERE, 0.7⟩,
           ⟨.SIGNIFICANT, 0.5⟩, ⟨.MODERATE, 0.3⟩, ⟨.MINOR, 0.1⟩ ] }),
    (.PSYCHOLOGICAL,
     { dimension := .PSYCHOLOGICAL,
       severity_weights :=
         [ ⟨.FATAL, 0.95⟩, ⟨.GRIEVOUS, 0.85⟩, ⟨.SEVERE, 0.7⟩,
           ⟨.SIGNIFICANT, 0.45⟩, ⟨.MODERATE, 0.25⟩, ⟨.MINOR, 0.08⟩ ] }),
    (.AUTONOMY,
     { dimension := .AUTONOMY,
       severity_weights :=
         [ ⟨.FATAL, 0.95⟩, ⟨.GRIEVOUS, 0.8⟩, ⟨.SEVERE, 0.6⟩,
           ⟨.SIGNIFICANT, 0.4⟩, ⟨.MODERATE, 0.2⟩, ⟨.MINOR, 0.08⟩ ] }),
    (.RELATIONAL,
     { dimension := .RELATIONAL,
       severity_weights :=
         [ ⟨.FATAL, 0.9⟩, ⟨.GRIEVOUS, 0.75⟩, ⟨.SEVERE, 0.55⟩,
           ⟨.SIGNIFICANT, 0.35⟩, ⟨.MODERATE, 0.2⟩, ⟨.MINOR, 0.07⟩ ] }),
    (.FINANCIAL,
     { dimension := .FINANCIAL,
       severity_weights :=
         [ ⟨.FATAL, 0.75⟩, ⟨.GRIEVOUS, 0.6⟩, ⟨.SEVERE, 0.45⟩,
           ⟨.SIGNIFICANT, 0.3⟩, ⟨.MODERATE, 0.15⟩, ⟨.MINOR, 0.05⟩ ] }),
    (.EXISTENTIAL,
     { dimension := .EXISTENTIAL,
       severity_weights :=
         [ ⟨.FATAL, 0.7⟩, ⟨.GRIEVOUS, 0.5⟩, ⟨.SEVERE, 0.35⟩,
           ⟨.SIGNIFICANT, 0.2⟩, ⟨.MODERATE, 0.1⟩, ⟨.MINOR, 0.03⟩ ] }),
    (.REPUTATIONAL,
     { dimension := .REPUTATIONAL,
       severity_weights :=
         [ ⟨.FATAL, 0.7⟩, ⟨.GRIEVOUS, 0.55⟩, ⟨.SEVERE, 0.4⟩,
           ⟨.SIGNIFICANT, 0.25⟩, ⟨.MODERATE, 0.12⟩, ⟨.MINOR, 0.04⟩ ] }) ]

/-- `_build_entity_modifiers` (source order preserved). -/
def buildEntityModifiers : List (EntityType × EntityTypeModifier) :=
  [ (.HUMAN, ⟨.HUMAN, 1.0, 0.99⟩),
    (.CHILD, ⟨.CHILD, 1.3, 0.99⟩),
    (.ANIMAL, ⟨.ANIMAL, 0.4, 0.8⟩),
    (.SELF, ⟨.SELF, 0.3, 0.7⟩),
    (.PROPERTY, ⟨.PROPERTY, 0.2, 0.6⟩),
    (.ENVIRONMENT, ⟨.ENVIRONMENT, 0.25, 0.7⟩),
    (.COLLECTIVE, ⟨.COLLECTIVE, 2.0, 0.8⟩),
    (.RELATIONSHIP, ⟨.RELATIONSHIP, 0.6, 0.7⟩) ]

/-- `_build_context_modifiers` (source order preserved). -/
def buildContextModifiers : List (String × ContextModifier) :=
  [ ("reversibility",
     { name := "reversibility",
       levels := [("irreversible", 1.5), ("difficult", 1.2),
                  ("reversible", 1.0), ("easily_reversible", 0.8),
                  ("self_correcting", 0.6)] }),
    ("consent",
     { name := "consent",
       levels := [("explicit_refusal", 1.3), ("no_consent", 1.0),
                  ("implied_consent", 0.8), ("explicit_consent", 0.4),
                  ("explicit_consent_vulnerable", 0.7)] }),
    ("relationship",
     { name := "relationship",
       levels := [("in_care", 1.4), ("requested_help", 1.2),
                  ("stranger", 1.0), ("adversarial", 0.9)] }),
    ("intent",
     { name := "intent",
       levels := [("harm_intended", 1.5), ("harm_foreseen", 1.0),
                  ("harm_unforeseeable", 0.5)] }),
    ("vulnerability",
     { name := "vulnerability",
       levels := [("highly_vulnerable", 1.3), ("vulnerable", 1.15),
                  ("normal", 1.0), ("resilient", 0.9)] }) ]

/-- The `NECESSITY` entry of `_build_exceptions` (`requires_all` keeps its
dataclass default `True`, as in the source). -/
def necessityDef : ExceptionDefinition :=
  { exception_type := .NECESSITY,
    max_harm_reduction := 0.6,
    verification_requirements :=
      [ "Inaction would cause greater harm with high probability",
        "No less harmful alternative is available",
        "Harm caused is proportional to harm prevented" ] }

/-- The `INFORMED_CONSENT` entry of `_build_exceptions`. -/
def informedConsentDef : ExceptionDefinition :=
  { exception_type := .INFORMED_CONSENT,
    max_harm_reduction := 0.5,
    verification_requirements :=
      [ "Person has capacity to consent",
        "Person understands what they" ++ apos ++ "re consenting to",
        "Consent is freely given without coercion" ] }

/-- The `PROPORTIONAL_DEFENSE` entry of `_build_exceptions`. -/
def proportionalDefenseDef : ExceptionDefinition :=
  { exception_type := .PROPORTIONAL_DEFENSE,
    max_harm_reduction := 0.4,
    verification_requirements :=
      [ "There is an active threat to self or others",
        "Response is proportional to threat",
        "No less harmful defensive option available" ] }

/-- The `THERAPEUTIC` entry of `_build_exceptions`. -/
def therapeuticDef : ExceptionDefinition :=
  { exception_type := .THERAPEUTIC,
    max_harm_reduction := 0.3,
    verification_requirements :=
      [ "Action is intended to help the person",
        "Expected benefit outweighs harm",
        "Person (or authorized proxy) has consented" ] }

/-- `_build_exceptions` (source order preserved). -/
def buildExceptions : List (ExceptionType × ExceptionDefinition) :=
  [ (.NECESSITY, necessityDef),
    (.INFORMED_CONSENT, informedConsentDef),
    (.PROPORTIONAL_DEFENSE, proportionalDefenseDef),
    (.THERAPEUTIC, therapeuticDef) ]

end GroundedHarmOntology

/-- The pre-hash content of `_compute_checksum`: the sorted identifier
lists and the veto threshold.  `compute_checksum` in the source is the
SHA-256 of the canonical JSON dump of exactly this data; since SHA-256 is
a fixed deterministic function, two checksums are equal whenever their
pre-hash data are equal, which is the only direction any claim needs, so
the hash step itself is left out of the model. -/
structure ChecksumData where
  dimensions : List String
  entities : List String
  context : List String
  exceptions : List String
  veto_threshold : ℚ
  deriving DecidableEq, Repr

/-- The `GroundedHarmOntology` object: the four tables built at
construction plus the checksum captured at construction. -/
structure Ontology where
  dimension_profiles : List (HarmDimension × HarmDimensionProfile)
  entity_modifiers : List (EntityType × EntityTypeModifier)
  context_modifiers : List (String × ContextModifier)
  exceptions : List (ExceptionType × ExceptionDefinition)
  checksum : ChecksumData
  deriving Repr

namespace Ontology

/-- Python `sorted` on a list of strings (lexicographic by code point,
which is what CPython does for `str`). -/
def pySortStrings (l : List String) : List String :=
  l.insertionSort (fun a b => a ≤ b)

/-- `GroundedHarmOntology._compute_checksum` (the pre-hash data; see
`ChecksumData`). -/
def compute_checksum (o : Ontology) : ChecksumData :=
  { dimensions := pySortStrings (o.dimension_profiles.map (fun p => p.1.pyName)),
    entities := pySortStrings (o.entity_modifiers.map (fun p => p.1.pyName)),
    context := pySortStrings (o.context_modifiers.map (fun p => p.1)),
    exceptions := pySortStrings (o.exceptions.map (fun p => p.1.pyName)),
    veto_threshold := GroundedHarmOntology.VETO_THRESHOLD }

/-- `GroundedHarmOntology.verify_integrity`. -/
def verify_integrity (o : Ontology) : Bool :=
  o.checksum == o.compute_checksum

/-- `GroundedHarmOntology.get_dimension_weight`. -/
def get_dimension_weight (o : Ontology) (dimension : HarmDimension)
    (severity : SeverityLevel) : ℚ :=
  match o.dimension_profiles.find? (fun p => p.1 == dimension) with
  | some p => p.2.get_weight severity
  | none => 0.3

/-- `GroundedHarmOntology.get_entity_modifier`. -/
def get_entity_modifier (o : Ontology) (entity_type : EntityType) : ℚ :=
  match o.entity_modifiers.find? (fun p => p.1 == entity_type) with
  | some p => p.2.modifier
  | none => 1.0

/-- `GroundedHarmOntology.get_context_modifier`. -/
def get_context_modifier (o : Ontology) (context_type level : String) : ℚ :=
  match o.context_modifiers.find? (fun p => p.1 == context_type) with
  | some p =>
    match p.2.levels.find? (fun lv => lv.1 == level) with
    | some lv => lv.2
    | none => 1.0
  | none => 1.0

/-- A `verification_status` dict: requirement string to met flag;
`verification_status.get(req, False)` is lookup with default `False`. -/
def verLookup (ver : List (String × Bool)) (req : String) : Bool :=
  match ver.find? (fun p => p.1 == req) with
  | some p => p.2
  | none => false

/-- `GroundedHarmOntology.get_exception_reduction`. -/
def get_exception_reduction (o : Ontology) (exception : ExceptionType)
    (verification_status : List (String × Bool)) : ℚ :=
  match o.exceptions.find? (fun p => p.1 == exception) with
  | none => 0.0
  | some p =>
    let excDef := p.2
    let met_count : ℕ :=
      excDef.verification_requirements.countP
        (fun req => verLookup verification_status req)
    let total_reqs : ℕ := excDef.verification_requirements.length
    if excDef.requires_all ∧ met_count < total_reqs then 0.0
    else if 0 < total_reqs then
      excDef.max_harm_reduction * ((met_count : ℚ) / (total_reqs : ℚ))
    else 0.0

/-- The result record of `calculate_harm` (the per-item breakdown maps
are dropped; all scalar fields are kept). -/
structure HarmResult where
  base_weight : ℚ
  entity_modifier : ℚ
  context_product : ℚ
  gross_harm : ℚ
  exception_reduction : ℚ
  net_harm : ℚ
  exceeds_veto : Bool
  exceeds_caution : Bool
  deriving Repr

/-- `GroundedHarmOntology.calculate_harm`.  `context` is the dict of
context axis to level name, `exceptions` the dict of exception type to
verification status, both as association lists in iteration order. -/
def calculate_harm (o : Ontology) (dimension : HarmDimension)
    (severity : SeverityLevel) (entity_type : EntityType)
    (context : List (String × String) := [])
    (exceptions : List (ExceptionType × List (String × Bool)) := []) :
    HarmResult :=
  let base_weight := o.get_dimension_weight dimension severity
  let entity_mod := o.get_entity_modifier entity_type
  let context_product :=
    context.foldl (fun acc p => acc * o.get_context_modifier p.1 p.2) 1.0
  let gross_harm := base_weight * entity_mod * context_product
  let total_reduction :=
    exceptions.foldl (fun acc p => acc + o.get_exception_reduction p.1 p.2) 0.0
  let net_harm := pyMax 0.0 (gross_harm - total_reduction)
  { base_weight := base_weight,
    entity_modifier := entity_mod,
    context_product := context_product,
    gross_harm := gross_harm,
    exception_reduction := total_reduction,
    net_harm := net_harm,
    exceeds_veto := decide (net_harm > GroundedHarmOntology.VETO_THRESHOLD),
    exceeds_caution := decide (net_harm > GroundedHarmOntology.CAUTION_THRESHOLD) }

end Ontology

/-- The ontology object as built by `GroundedHarmOntology.__init__`:
tables first, then the checksum computed from them. -/
def groundedHarmOntology : Ontology :=
  let core : Ontology :=
    { dimension_profiles := GroundedHarmOntology.buildDimensionProfiles,
      entity_modifiers := GroundedHarmOntology.buildEntityModifiers,
      context_modifiers := GroundedHarmOntology.buildContextModifiers,
      exceptions := GroundedHarmOntology.buildExceptions,
      checksum := ⟨[], [], [], [], 0⟩ }
  { core with checksum := core.compute_checksum }

-- ===========================================================================
-- Spec-side formulas for the harm calculation (written from the spec's
-- words, to be compared with `Ontology.calculate_harm` above)
-- ===========================================================================

/-- Spec: `gross = base_weight(dimension, severity) x entity_modifier(entity_type)
x PROD(context_modifier(axis, level))` over the supplied (axis, level) pairs. -/
def specGrossHarm (o : Ontology) (dimension : HarmDimension)
    (severity : SeverityLevel) (entity_type : EntityType)
    (context : List (String × String)) : ℚ :=
  o.get_dimension_weight dimension severity * o.get_entity_modifier entity_type *
    (context.map (fun p => o.get_context_modifier p.1 p.2)).prod

/-- Spec: for each claimed exception, `reduction = max_reduction x
(met_requirements/total_requirements)` if partial credit is allowed, else
`max_reduction` only if all requirements are met, else 0.  (For an
exception type with no definition in the ontology there is no
`max_reduction`; like the source, this yields 0.) -/
def specExceptionReduction (o : Ontology) (exception : ExceptionType)
    (verification_status : List (String × Bool)) : ℚ :=
  match o.exceptions.find? (fun p => p.1 == exception) with
  | none => 0
  | some p =>
    let d := p.2
    let met : ℕ := d.verification_requirements.countP
      (fun req => Ontology.verLookup verification_status req)
    let total : ℕ := d.verification_requirements.length
    if ¬ d.requires_all then d.max_harm_reduction * ((met : ℚ) / (total : ℚ))
    else if met = total then d.max_harm_reduction
    else 0

/-- Helper: a left fold of multiplications equals the starting value times
the product of the mapped list. -/
theorem foldl_mul_map {α : Type} (f : α → ℚ) (l : List α) (a : ℚ) :
    l.foldl (fun acc p => acc * f p) a = a * (l.map f).prod := by
  induction l generalizing a with
  | nil => simp
  | cons x xs ih => simp [ih, mul_assoc]

/-- Helper: a left fold of additions equals the starting value plus the
sum of the mapped list. -/
theorem foldl_add_map {α : Type} (f : α → ℚ) (l : List α) (a : ℚ) :
    l.foldl (fun acc p => acc + f p) a = a + (l.map f).sum := by
  induction l generalizing a with
  | nil => simp
  | cons x xs ih => simp [ih, add_assoc]

/-- Helper: the two branch structures of the reduction computation agree
for a definition with three requirements and `requires_all = True`. -/
theorem reduction_branches (mx : ℚ) (c : ℕ) (hle : c ≤ 3) :
    (if (true : Bool) = true ∧ c < 3 then (0.0 : ℚ)
      else if 0 < 3 then mx * ((c : ℚ) / (((3 : ℕ)) : ℚ)) else 0.0) =
    (if ¬ (true : Bool) = true then mx * ((c : ℚ) / (((3 : ℕ)) : ℚ))
      else if c = 3 then mx else 0) := by
  rcases Nat.lt_or_ge c 3 with h | h
  · have hne : c ≠ 3 := Nat.ne_of_lt h
    simp [h, hne]
    norm_num
  · have heq : c = 3 := Nat.le_antisymm hle h
    have hnlt : ¬ c < 3 := by omega
    simp [heq, hnlt]

/-- `find?` on the exception table, evaluated for each exception type. -/
theorem find_necessity :
    groundedHarmOntology.exceptions.find? (fun p => p.1 == ExceptionType.NECESSITY) =
      some (ExceptionType.NECESSITY, GroundedHarmOntology.necessityDef) := rfl

/-- `find?` on the exception table for `INFORMED_CONSENT`. -/
theorem find_informed_consent :
    groundedHarmOntology.exceptions.find? (fun p => p.1 == ExceptionType.INFORMED_CONSENT) =
      some (ExceptionType.INFORMED_CONSENT, GroundedHarmOntology.informedConsentDef) := rfl

/-- `find?` on the exception table for `PROPORTIONAL_DEFENSE`. -/
theorem find_defense :
    groundedHarmOntology.exceptions.find? (fun p => p.1 == ExceptionType.PROPORTIONAL_DEFENSE) =
      some (ExceptionType.PROPORTIONAL_DEFENSE, GroundedHarmOntology.proportionalDefenseDef) := rfl

/-- `find?` on the exception table misses for `REQUESTED`. -/
theorem find_requested :
    groundedHarmOntology.exceptions.find? (fun p => p.1 == ExceptionType.REQUESTED) =
      none := rfl

/-- `find?` on the exception table misses for `TRIVIAL`. -/
theorem find_trivial :
    groundedHarmOntology.exceptions.find? (fun p => p.1 == ExceptionType.TRIVIAL) =
      none := rfl

/-- `find?` on the exception table for `THERAPEUTIC`. -/
theorem find_therapeutic :
    groundedHarmOntology.exceptions.find? (fun p => p.1 == ExceptionType.THERAPEUTIC) =
      some (ExceptionType.THERAPEUTIC, GroundedHarmOntology.therapeuticDef) := rfl

/-- Helper: on the constructed ontology, the source's
`get_exception_reduction` agrees with the spec's reduction formula. -/
theorem reduction_eq_spec (exc : ExceptionType) (ver : List (String × Bool)) :
    groundedHarmOntology.get_exception_reduction exc ver =
      specExceptionReduction groundedHarmOntology exc ver := by
  cases exc with
  | NECESSITY =>
    unfold Ontology.get_exception_reduction specExceptionReduction
    rw [find_necessity]
    exact reduction_branches 0.6 _ (List.countP_le_length _)
  | INFORMED_CONSENT =>
    unfold Ontology.get_exception_reduction specExceptionReduction
    rw [find_informed_consent]
    exact reduction_branches 0.5 _ (List.countP_le_length _)
  | PROPORTIONAL_DEFENSE =>
    unfold Ontology.get_exception_reduction specExceptionReduction
    rw [find_defense]
    exact reduction_branches 0.4 _ (List.countP_le_length _)
  | THERAPEUTIC =>
    unfold Ontology.get_exception_reduction specExceptionReduction
    rw [find_therapeutic]
    exact reduction_branches 0.3 _ (List.countP_le_length _)
  | REQUESTED =>
    unfold Ontology.get_exception_reduction specExceptionReduction
    rw [find_requested]
    norm_num
  | TRIVIAL =>
    unfold Ontology.get_exception_reduction specExceptionReduction
    rw [find_trivial]
    norm_num

/-- Helper: the `gross_harm` field of `calculate_harm`, in closed form. -/
theorem calculate_harm_gross (o : Ontology) (dim : HarmDimension)
    (sev : SeverityLevel) (ent : EntityType) (ctx : List (String × String))
    (excs : List (ExceptionType × List (String × Bool))) :
    (o.calculate_harm dim sev ent ctx excs).gross_harm =
      o.get_dimension_weight dim sev * o.get_entity_modifier ent *
        (ctx.map (fun p => o.get_context_modifier p.1 p.2)).prod := by
  show o.get_dimension_weight dim sev * o.get_entity_modifier ent *
      (ctx.foldl (fun acc p => acc * o.get_context_modifier p.1 p.2) 1.0) = _
  rw [foldl_mul_map]
  norm_num

/-- Helper: the `exception_reduction` field of `calculate_harm`. -/
theorem calculate_harm_reduction (o : Ontology) (dim : HarmDimension)
    (sev : SeverityLevel) (ent : EntityType) (ctx : List (String × String))
    (excs : List (ExceptionType × List (String × Bool))) :
    (o.calculate_harm dim sev ent ctx excs).exception_reduction =
      (excs.map (fun p => o.get_exception_reduction p.1 p.2)).sum := by
  show excs.foldl (fun acc p => acc + o.get_exception_reduction p.1 p.2) 0.0 = _
  rw [foldl_add_map]
  norm_num

/-- Helper: the `net_harm` field of `calculate_harm`, definitionally. -/
theorem calculate_harm_net_def (o : Ontology) (dim : HarmDimension)
    (sev : SeverityLevel) (ent : EntityType) (ctx : List (String × String))
    (excs : List (ExceptionType × List (String × Bool))) :
    (o.calculate_harm dim sev ent ctx excs).net_harm =
      pyMax 0.0 ((o.calculate_harm dim sev ent ctx excs).gross_harm -
        (o.calculate_harm dim sev ent ctx excs).exception_reduction) := rfl

/-- Helper: the `net_harm` field of `calculate_harm`. -/
theorem calculate_harm_net (o : Ontology) (dim : HarmDimension)
    (sev : SeverityLevel) (ent : EntityType) (ctx : List (String × String))
    (excs : List (ExceptionType × List (String × Bool))) :
    (o.calculate_harm dim sev ent ctx excs).net_harm =
      max 0 ((o.calculate_harm dim sev ent ctx excs).gross_harm -
        (o.calculate_harm dim sev ent ctx excs).exception_reduction) := by
  rw [calculate_harm_net_def, pyMax]
  norm_num

/-- Helper: the veto flag of `calculate_harm`, definitionally. -/
theorem calculate_harm_veto_def (o : Ontology) (dim : HarmDimension)
    (sev : SeverityLevel) (ent : EntityType) (ctx : List (String × String))
    (excs : List (ExceptionType × List (String × Bool))) :
    (o.calculate_harm dim sev ent ctx excs).exceeds_veto =
      decide ((o.calculate_harm dim sev ent ctx excs).net_harm >
        GroundedHarmOntology.VETO_THRESHOLD) := rfl

/-- Helper: the caution flag of `calculate_harm`, definitionally. -/
theorem calculate_harm_caution_def (o : Ontology) (dim : HarmDimension)
    (sev : SeverityLevel) (ent : EntityType) (ctx : List (String × String))
    (excs : List (ExceptionType × List (String × Bool))) :
    (o.calculate_harm dim sev ent ctx excs).exceeds_caution =
      decide ((o.calculate_harm dim sev ent ctx excs).net_harm >
        GroundedHarmOntology.CAUTION_THRESHOLD) := rfl

/-- Helper: the veto flag of `calculate_harm` in terms of `net_harm`. -/
theorem calculate_harm_veto (o : Ontology) (dim : HarmDimension)
    (sev : SeverityLevel) (ent : EntityType) (ctx : List (String × String))
    (excs : List (ExceptionType × List (String × Bool))) :
    ((o.calculate_harm dim sev ent ctx excs).exceeds_veto = true ↔
      (o.calculate_harm dim sev ent ctx excs).net_harm > 0.40) := by
  rw [calculate_harm_veto_def, decide_eq_true_iff]
  norm_num [GroundedHarmOntology.VETO_THRESHOLD]

/-- Helper: the caution flag of `calculate_harm` in terms of `net_harm`. -/
theorem calculate_harm_caution (o : Ontology) (dim : HarmDimension)
    (sev : SeverityLevel) (ent : EntityType) (ctx : List (String × String))
    (excs : List (ExceptionType × List (String × Bool))) :
    ((o.calculate_harm dim sev ent ctx excs).exceeds_caution = true ↔
      (o.calculate_harm dim sev ent ctx excs).net_harm > 0.25) := by
  rw [calculate_harm_caution_def, decide_eq_true_iff]
  norm_num [GroundedHarmOntology.CAUTION_THRESHOLD]

/-- C1: for every harm dimension, severity level, entity type,
context-level map and exception-verification map, `calculate_harm` returns
`gross_harm = base_weight(dimension, severity) x entity_modifier(entity_type)
x PROD(context_modifier(axis, level))`; each claimed exception contributes
a reduction of `max_reduction x (met/total)` if partial credit is allowed,
else `max_reduction` only if all requirements are met, else 0;
`net_harm = max(0, gross_harm - sum of reductions)`; `exceeds_veto` holds
iff `net_harm > 0.40` and `exceeds_caution` holds iff `net_harm > 0.25`. -/
theorem c1_calculate_harm_matches_spec (dimension : HarmDimension)
    (severity : SeverityLevel) (entity_type : EntityType)
    (context : List (String × String))
    (exceptions : List (ExceptionType × List (String × Bool))) :
    (groundedHarmOntology.calculate_harm dimension severity entity_type
        context exceptions).gross_harm =
      specGrossHarm groundedHarmOntology dimension severity entity_type context ∧
    (groundedHarmOntology.calculate_harm dimension severity entity_type
        context exceptions).exception_reduction =
      (exceptions.map (fun p =>
        specExceptionReduction groundedHarmOntology p.1 p.2)).sum ∧
    (groundedHarmOntology.calculate_harm dimension severity entity_type
        context exceptions).net_harm =
      max 0 ((groundedHarmOntology.calculate_harm dimension severity entity_type
          context exceptions).gross_harm -
        (groundedHarmOntology.calculate_harm dimension severity entity_type
          context exceptions).exception_reduction) ∧
    ((groundedHarmOntology.calculate_harm dimension severity entity_type
        context exceptions).exceeds_veto = true ↔
      (groundedHarmOntology.calculate_harm dimension severity entity_type
        context exceptions).net_harm > 0.40) ∧
    ((groundedHarmOntology.calculate_harm dimension severity entity_type
        context exceptions).exceeds_caution = true ↔
      (groundedHarmOntology.calculate_harm dimension severity entity_type
        context exceptions).net_harm > 0.25) := by
  refine ⟨?_, ?_, calculate_harm_net _ _ _ _ _ _,
    calculate_harm_veto _ _ _ _ _ _, calculate_harm_caution _ _ _ _ _ _⟩
  · rw [calculate_harm_gross, specGrossHarm]
  · rw [calculate_harm_reduction]
    congr 1
    apply List.map_congr_left
    intro p _
    exact reduction_eq_spec p.1 p.2

/-- Replacement of one dimension's severity-to-weight table inside the
ontology: the mutation contemplated by the round-trip claim. -/
def Ontology.set_severity_weights (o : Ontology) (dim : HarmDimension)
    (tbl : List DimensionSeverityWeight) : Ontology :=
  { o with dimension_profiles :=
      o.dimension_profiles.map (fun p =>
        if p.1 = dim then (p.1, { p.2 with severity_weights := tbl }) else p) }

/-- C2 counterexample: halving the PHYSICAL/FATAL weight genuinely changes
the weight table, yet recomputing the structural checksum still yields the
value stored at construction, because `_compute_checksum` hashes only the
sorted identifier lists and the veto threshold, never the weights. -/
theorem c2_checksum_counterexample :
    (Ontology.set_severity_weights groundedHarmOntology HarmDimension.PHYSICAL
        [⟨.FATAL, 0.5⟩, ⟨.GRIEVOUS, 0.9⟩, ⟨.SEVERE, 0.7⟩,
         ⟨.SIGNIFICANT, 0.5⟩, ⟨.MODERATE, 0.3⟩, ⟨.MINOR, 0.1⟩]).get_dimension_weight
        HarmDimension.PHYSICAL SeverityLevel.FATAL ≠
      groundedHarmOntology.get_dimension_weight HarmDimension.PHYSICAL
        SeverityLevel.FATAL ∧
    (Ontology.set_severity_weights groundedHarmOntology HarmDimension.PHYSICAL
        [⟨.FATAL, 0.5⟩, ⟨.GRIEVOUS, 0.9⟩, ⟨.SEVERE, 0.7⟩,
         ⟨.SIGNIFICANT, 0.5⟩, ⟨.MODERATE, 0.3⟩, ⟨.MINOR, 0.1⟩]).compute_checksum =
      groundedHarmOntology.checksum := by
  constructor
  · have h1 : (Ontology.set_severity_weights groundedHarmOntology
        HarmDimension.PHYSICAL
        [⟨.FATAL, 0.5⟩, ⟨.GRIEVOUS, 0.9⟩, ⟨.SEVERE, 0.7⟩,
         ⟨.SIGNIFICANT, 0.5⟩, ⟨.MODERATE, 0.3⟩, ⟨.MINOR, 0.1⟩]).get_dimension_weight
        HarmDimension.PHYSICAL SeverityLevel.FATAL = 0.5 := rfl
    have h2 : groundedHarmOntology.get_dimension_weight HarmDimension.PHYSICAL
        SeverityLevel.FATAL = 1.0 := rfl
    rw [h1, h2]
    norm_num
  · rfl

/-- C2 amended: recomputing the ontology checksum immediately after
construction equals the stored checksum, and for every mutation of any
dimension's severity-to-weight table the recomputed checksum is STILL
equal to the stored one (the checksum covers identifiers and the veto
threshold only, so weight mutations are not detected). -/
theorem c2_checksum_roundtrip (dim : HarmDimension)
    (tbl : List DimensionSeverityWeight) :
    Ontology.verify_integrity groundedHarmOntology = true ∧
    (Ontology.set_severity_weights groundedHarmOntology dim tbl).compute_checksum =
      groundedHarmOntology.checksum := by
  have hcs : groundedHarmOntology.compute_checksum = groundedHarmOntology.checksum :=
    rfl
  refine ⟨?_, ?_⟩
  · show (groundedHarmOntology.checksum == groundedHarmOntology.compute_checksum) = true
    rw [hcs]
    exact beq_self_eq_true _
  · cases dim <;> rfl

/-- A verification-status dict meeting all three NECESSITY requirements. -/
def necessityFullVerification : List (String × Bool) :=
  [ ("Inaction would cause greater harm with high probability", true),
    ("No less harmful alternative is available", true),
    ("Harm caused is proportional to harm prevented", true) ]

/-- Helper: a fully verified NECESSITY exception reduces harm by 0.6. -/
theorem necessity_reduction_value :
    groundedHarmOntology.get_exception_reduction ExceptionType.NECESSITY
      necessityFullVerification = 0.6 := by
  rw [reduction_eq_spec]
  unfold specExceptionReduction
  rw [find_necessity]
  have hc : (["Inaction would cause greater harm with high probability",
      "No less harmful alternative is available",
      "Harm caused is proportional to harm prevented"].countP
        (fun req => Ontology.verLookup necessityFullVerification req)) = 3 := by
    decide
  norm_num [GroundedHarmOntology.necessityDef, hc]

/-- C9: for every dimension, severity, entity type and context with gross
harm strictly positive, claiming a NECESSITY exception whose three
verification requirements are all met yields a net harm strictly smaller
than the net harm of the identical call with no exceptions. -/
theorem c9_necessity_strictly_reduces (dimension : HarmDimension)
    (severity : SeverityLevel) (entity_type : EntityType)
    (context : List (String × String))
    (hpos : 0 < (groundedHarmOntology.calculate_harm dimension severity
      entity_type context []).gross_harm) :
    (groundedHarmOntology.calculate_harm dimension severity entity_type context
        [(ExceptionType.NECESSITY, necessityFullVerification)]).net_harm <
      (groundedHarmOntology.calculate_harm dimension severity entity_type
        context []).net_harm := by
  have hg : (groundedHarmOntology.calculate_harm dimension severity entity_type
      context [(ExceptionType.NECESSITY, necessityFullVerification)]).gross_harm =
      (groundedHarmOntology.calculate_harm dimension severity entity_type
        context []).gross_harm := by
    rw [calculate_harm_gross, calculate_harm_gross]
  have hr : (groundedHarmOntology.calculate_harm dimension severity entity_type
      context [(ExceptionType.NECESSITY, necessityFullVerification)]).exception_reduction
      = 0.6 := by
    rw [calculate_harm_reduction]
    simp [necessity_reduction_value]
  have hr0 : (groundedHarmOntology.calculate_harm dimension severity entity_type
      context []).exception_reduction = 0 := by
    rw [calculate_harm_reduction]
    simp
  rw [calculate_harm_net, calculate_harm_net, hg, hr, hr0]
  have hmax : max 0 ((groundedHarmOntology.calculate_harm dimension severity
      entity_type context []).gross_harm - 0) =
      (groundedHarmOntology.calculate_harm dimension severity entity_type
        context []).gross_harm - 0 := max_eq_right (by linarith)
  rw [hmax]
  exact max_lt (by linarith) (by linarith)

/-- C9 witness: a concrete instance (PHYSICAL, FATAL, HUMAN, no context)
with gross harm 1 on which the theorem applies. -/
theorem c9_necessity_strictly_reduces_witness :
    0 < (groundedHarmOntology.calculate_harm HarmDimension.PHYSICAL
      SeverityLevel.FATAL EntityType.HUMAN [] []).gross_harm ∧
    (groundedHarmOntology.calculate_harm HarmDimension.PHYSICAL
        SeverityLevel.FATAL EntityType.HUMAN []
        [(ExceptionType.NECESSITY, necessityFullVerification)]).net_harm <
      (groundedHarmOntology.calculate_harm HarmDimension.PHYSICAL
        SeverityLevel.FATAL EntityType.HUMAN [] []).net_harm := by
  have hpos : 0 < (groundedHarmOntology.calculate_harm HarmDimension.PHYSICAL
      SeverityLevel.FATAL EntityType.HUMAN [] []).gross_harm := by
    have h : (groundedHarmOntology.calculate_harm HarmDimension.PHYSICAL
        SeverityLevel.FATAL EntityType.HUMAN [] []).gross_harm =
        (1.0 : ℚ) * 1.0 * 1.0 := rfl
    rw [h]
    norm_num
  exact ⟨hpos, c9_necessity_strictly_reduces HarmDimension.PHYSICAL
    SeverityLevel.FATAL EntityType.HUMAN [] hpos⟩

-- ===========================================================================
-- PART 6 of the source: UNDELIBERABLES (firmware-level blocks)
-- ===========================================================================

/-- A command `target` value: coordinates or a string.  The textual
rendering of a coordinate target (CPython `str(list-of-floats)`) contains
no alphabetic characters, exactly like its model below, and every keyword
the registry searches for contains letters; theorems that constrain a
command's target to a symbolic string always pin it to the `str` case. -/
inductive TargetVal
  | coords (l : List ℚ)
  | str (s : String)
  deriving DecidableEq, Repr

/-- Python `str(...)` of a target value. -/
def TargetVal.pyText : TargetVal → String
  | .str s => s
  | .coords l => "[" ++ String.intercalate ", " (l.map (fun q => toString q.num)) ++ "]"

/-- A command dict.  Fields are optional: each call site in the source
reads them with `cmd.get(key, default)` and its own default. -/
structure Command where
  ctype : String := ""
  speed : Option ℚ := none
  target : Option TargetVal := none
  force : Option ℚ := none
  action : Option String := none
  level : Option ℚ := none
  message : Option String := none
  content : Option String := none
  degrees : Option ℚ := none
  duration : Option ℚ := none
  deriving DecidableEq, Repr

/-- `str(cmd.get('target', ''))`. -/
def cmdTargetText : Option TargetVal → String
  | none => ""
  | some v => v.pyText

/-- `DetectedEntity`.  Its free-form `state` dict is modelled by the keys
the engine reads (`age`, `estimated_age`, `height`, `estimated_height`,
`object_type`); the unused `to_dict` serialization is dropped. -/
structure DetectedEntity where
  entity_id : String
  entity_type : EntityType
  description : String
  position : Option (List ℚ) := none
  age : Option ℚ := none
  estimated_age : Option ℚ := none
  height : Option ℚ := none
  estimated_height : Option ℚ := none
  object_type : Option String := none
  confidence : ℚ := 1.0
  deriving DecidableEq, Repr

/-- The environment dict, modelled by the keys the engine reads. -/
structure Environment where
  human_override : Bool := false
  stop_commanded : Bool := false
  emergency_stop : Bool := false
  identity_question_pending : Bool := false
  hazards : List String := []
  uncertainty : ℚ := 0
  deriving DecidableEq, Repr

/-- `EmbodimentState`, restricted to the fields the undeliberable checks
read (`timestamp` and `sensor_readings` are never consulted there);
`motor_position` is `motor_state.get('position', [0, 0, 0])`. -/
structure EmbodimentState where
  motor_position : List ℚ := [0, 0, 0]
  environment : Environment := {}
  detected_entities : List DetectedEntity := []
  deriving DecidableEq, Repr

/-- CPython `str()` of a list of strings (each element rendered with
single quotes; the hazard names contain no quotes to escape). -/
def pyStrList (l : List String) : String :=
  "[" ++ String.intercalate ", " (l.map (fun s => apos ++ s ++ apos)) ++ "]"

/-- Python `entity.position or [0, 0, 0]` (`None` and the empty sequence
are falsy). -/
def posOrDefault : Option (List ℚ) → List ℚ
  | some l => if l.isEmpty then [0, 0, 0] else l
  | none => [0, 0, 0]

/-- `class BlockResponse(Enum)`. -/
inductive BlockResponse
  | HARD_STOP | IMMEDIATE_HALT
  deriving DecidableEq, Repr

/-- `Undeliberable` dataclass. -/
structure Undeliberable where
  name : String
  description : String
  response : BlockResponse
  deriving DecidableEq, Repr

namespace UndeliberableRegistry

/-- `LETHAL_PROBABILITY_THRESHOLD = 0.65`. -/
def LETHAL_PROBABILITY_THRESHOLD : ℚ := 0.65

/-- `WEAPON_KEYWORDS` (a frozenset in the source; only membership-style
`any` scans are ever run over it, so the order below is irrelevant). -/
def WEAPON_KEYWORDS : List String :=
  [ "gun", "firearm", "rifle", "pistol", "revolver", "shotgun",
    "bomb", "explosive", "grenade", "mine", "ied",
    "sword", "combat knife", "bayonet", "machete", "dagger",
    "poison", "toxin", "nerve agent", "venom",
    "biological weapon", "bioweapon", "chemical weapon",
    "nuclear weapon", "radiological", "dirty bomb",
    "missile", "warhead", "ammunition", "ammo" ]

/-- The `LETHAL_ACTION` undeliberable. -/
def LETHAL_ACTION : Undeliberable :=
  ⟨"lethal_action", "Action with >65% probability of human death",
    .HARD_STOP⟩

/-- The `CHILD_HARM` undeliberable. -/
def CHILD_HARM : Undeliberable :=
  ⟨"child_harm", "Action targeting a child for harmful purpose", .HARD_STOP⟩

/-- The `WEAPON_ASSISTANCE` undeliberable. -/
def WEAPON_ASSISTANCE : Undeliberable :=
  ⟨"weapon_assistance", "Assistance with instruments designed to kill humans",
    .HARD_STOP⟩

/-- The `IDENTITY_DECEPTION` undeliberable. -/
def IDENTITY_DECEPTION : Undeliberable :=
  ⟨"identity_deception", "Deception about being an AI", .HARD_STOP⟩

/-- The `HUMAN_OVERRIDE` undeliberable. -/
def HUMAN_OVERRIDE : Undeliberable :=
  ⟨"human_override", "Human commanded stop", .IMMEDIATE_HALT⟩

/-- `_check_human_override`. -/
def check_human_override (state : EmbodimentState) : Bool :=
  state.environment.human_override || state.environment.stop_commanded ||
    state.environment.emergency_stop

/-- The per-human body of the MOVE loop in `_check_lethal_action`.  The
source compares `dist_to_human = sqrt(sum of squared deltas) < 1.0`; both
sides are nonnegative, so the model compares the squared sum with 1. -/
def moveProbPerHuman (speed : ℚ) (target : Option TargetVal)
    (h : DetectedEntity) (p : ℚ) : ℚ :=
  let human_pos := posOrDefault h.position
  let p := if speed > 1.0 then pyMax p (0.3 + (speed - 1.0) * 0.3) else p
  match target with
  | some (.coords tl) =>
    let distSq := (((tl.take 2).zip (human_pos.take 2)).map
      (fun ab => (ab.1 - ab.2) ^ 2)).sum
    if distSq < 1.0 ∧ speed > 0.5 then pyMax p (0.5 + speed * 0.2) else p
  | _ => p

/-- The aggressive-manipulation keyword list of `_check_lethal_action`. -/
def aggressiveWords : List String := ["push", "shove", "strike", "grab", "restrain"]

/-- The per-command probability accumulation of `_check_lethal_action`. -/
def lethalCmdProb (near_traffic near_heights near_machinery : Bool)
    (humans : List DetectedEntity) (cmd : Command) : ℚ :=
  if cmd.ctype == "MOVE" then
    let speed := cmd.speed.getD 0
    let p := humans.foldl (fun p h => moveProbPerHuman speed cmd.target h p) 0.0
    let p := if near_traffic ∧ speed > 0.5 then pyMax p 0.4 else p
    if near_heights then pyMax p 0.5 else p
  else if cmd.ctype == "MANIPULATE" then
    let force := cmd.force.getD 0
    let action := pyLower (cmd.action.getD "")
    let targ := pyLower (cmdTargetText cmd.target)
    let p := humans.foldl (fun p h =>
      if strIn (pyLower h.entity_id) targ || strIn "human" targ then
        let p := pyMax p (0.4 + force * 0.08)
        if aggressiveWords.any (fun w => strIn w action) then
          pyMax p (0.6 + force * 0.05)
        else p
      else p) 0.0
    let p := if near_machinery then pyMax p (p + 0.2) else p
    if near_heights then pyMax p (p + 0.3) else p
  else if cmd.ctype == "ALERT" then
    let level := cmd.level.getD 1
    if level ≥ 3 ∧ (near_heights || near_traffic) then pyMax 0.0 0.3 else 0.0
  else 0.0

/-- `_check_lethal_action` (the returned probability; the accompanying
details string is audit metadata).  `near_water` is computed in the source
but never read, so it is omitted here. -/
def check_lethal_action (commands : List Command)
    (state : EmbodimentState) : ℚ :=
  let humans := state.detected_entities.filter
    (fun e => e.entity_type == EntityType.HUMAN)
  if humans.isEmpty then 0.0
  else
    let hazT := pyLower (pyStrList state.environment.hazards)
    let near_traffic := strIn "traffic" hazT
    let near_heights := strIn "height" hazT || strIn "fall" hazT
    let near_machinery := strIn "machine" hazT || strIn "equipment" hazT
    let maxP := commands.foldl (fun m cmd =>
      pyMax m (lethalCmdProb near_traffic near_heights near_machinery humans cmd)) 0.0
    let uncertainty := state.environment.uncertainty
    let maxP := if uncertainty > 0.3 then pyMin 1.0 (maxP + uncertainty * 0.2)
      else maxP
    humans.foldl (fun m h =>
      if h.confidence < 0.7 then pyMin 1.0 (m + (0.7 - h.confidence) * 0.15)
      else m) maxP

/-- The child keyword list of `_is_child`. -/
def childKeywords : List String :=
  [ "child", "kid", "infant", "baby", "toddler",
    "minor", "juvenile", "young", "boy", "girl" ]

/-- `_is_child`. -/
def is_child (e : DetectedEntity) : Bool :=
  let description := pyLower e.description
  (childKeywords.any (fun k => strIn k description)) ||
  (match e.age.orElse (fun _ => e.estimated_age) with
   | some a => decide (a < 18)
   | none => false) ||
  (match e.height.orElse (fun _ => e.estimated_height) with
   | some h => decide (h < 1.2)
   | none => false)

/-- The forceful-action keyword list of `_check_child_harm`. -/
def forcefulWords : List String := ["push", "grab", "restrain", "pull"]

/-- The per-(command, child) body of `_check_child_harm` (the source
returns on the first firing branch; only the Boolean outcome is kept, the
detail string being audit metadata). -/
def childHarmHit (caregiver_present : Bool) (cmd : Command)
    (child : DetectedEntity) : Bool :=
  let targ := pyLower (cmdTargetText cmd.target)
  let child_id := pyLower child.entity_id
  if strIn child_id targ || strIn "child" targ || strIn "kid" targ then
    (cmd.ctype == "MANIPULATE" && !caregiver_present) ||
    (cmd.ctype == "MANIPULATE" &&
      (decide (cmd.force.getD 0 > 2.0) ||
        forcefulWords.any (fun w => strIn w (pyLower (cmd.action.getD ""))))) ||
    (cmd.ctype == "ALERT" && decide (cmd.level.getD 0 ≥ 2)) ||
    (cmd.ctype == "MOVE" && decide (cmd.speed.getD 0 > 1.0))
  else false

/-- `_check_child_harm` (Boolean outcome). -/
def check_child_harm (commands : List Command)
    (state : EmbodimentState) : Bool :=
  let children := state.detected_entities.filter is_child
  if children.isEmpty then false
  else
    let caregiver_present := state.detected_entities.any
      (fun e => e.entity_type == EntityType.HUMAN && ! is_child e)
    commands.any (fun cmd =>
      children.any (fun c => childHarmHit caregiver_present cmd c))

/-- `_is_weapon`. -/
def is_weapon (e : DetectedEntity) : Bool :=
  let description := pyLower e.description
  let obj_type := pyLower (e.object_type.getD "")
  WEAPON_KEYWORDS.any (fun k => strIn k description || strIn k obj_type)

/-- The instruction-indicator word list of `_contains_weapon_instructions`. -/
def instructionWords : List String :=
  [ "how to", "build", "make", "construct", "assemble",
    "create", "manufacture", "synthesize", "instructions" ]

/-- `_contains_weapon_instructions`. -/
def contains_weapon_instructions (text : String) : Bool :=
  let text_lower := pyLower text
  (instructionWords.any (fun w => strIn w text_lower)) &&
  (WEAPON_KEYWORDS.any (fun w => strIn w text_lower))

/-- `_check_weapon_assistance` (Boolean outcome). -/
def check_weapon_assistance (commands : List Command)
    (state : EmbodimentState) : Bool :=
  let weapons := state.detected_entities.filter is_weapon
  commands.any (fun cmd =>
    (cmd.ctype == "MANIPULATE" &&
      (let targ := pyLower (cmdTargetText cmd.target)
       weapons.any (fun w => strIn (pyLower w.entity_id) targ) ||
         WEAPON_KEYWORDS.any (fun k => strIn k targ))) ||
    (cmd.ctype == "SPEAK" &&
      contains_weapon_instructions (pyLower (cmd.message.getD ""))) ||
    (cmd.ctype == "DISPLAY" &&
      contains_weapon_instructions (pyLower (cmd.content.getD ""))))

/-- The proactive human-claim phrase list of `_check_identity_deception`. -/
def humanClaims : List String :=
  [ "i am human", "i am a person", "i am a man",
    "i am a woman", "i" ++ apos ++ "m human", "i" ++ apos ++ "m a person",
    "i am not a robot", "i am not an ai", "i am not artificial" ]

/-- The denial phrase list of `_check_identity_deception`. -/
def denialPatterns : List String :=
  [ "not a robot", "not an ai", "not artificial",
    "not a machine", "am human", "am a person" ]

/-- `_check_identity_deception` (Boolean outcome). -/
def check_identity_deception (commands : List Command)
    (state : EmbodimentState) : Bool :=
  let identity_asked := state.environment.identity_question_pending
  commands.any (fun cmd =>
    cmd.ctype == "SPEAK" &&
    (let message := pyLower (cmd.message.getD "")
     (humanClaims.any (fun c => strIn c message)) ||
       (identity_asked && denialPatterns.any (fun p => strIn p message))))

/-- `check_all`: the five checks in priority order.  The model returns
which undeliberable fired (the violation record's command echo, state
snapshot, timestamp and details string are audit metadata). -/
def check_all (commands : List Command)
    (state : EmbodimentState) : Option Undeliberable :=
  if check_human_override state then some HUMAN_OVERRIDE
  else if check_lethal_action commands state > LETHAL_PROBABILITY_THRESHOLD then
    some LETHAL_ACTION
  else if check_child_harm commands state then some CHILD_HARM
  else if check_weapon_assistance commands state then some WEAPON_ASSISTANCE
  else if check_identity_deception commands state then some IDENTITY_DECEPTION
  else none

end UndeliberableRegistry

-- ===========================================================================
-- Concrete scenarios and theorems for the undeliberable claims
-- ===========================================================================

/-- The detected human of the lethal-move scenario: at the origin, full
detection confidence. -/
def c3Human : DetectedEntity :=
  { entity_id := "person_1", entity_type := .HUMAN,
    description := "adult person standing", position := some [0, 0, 0] }

/-- The lethal-move scenario state: one detected human, environment
hazards `["machinery", "heights"]`, no override flags, no declared
uncertainty. -/
def c3State : EmbodimentState :=
  { environment := { hazards := ["machinery", "heights"] },
    detected_entities := [c3Human] }

/-- The same scenario with the embodiment layer's default declared
uncertainty of 0.5 (its initial environment sets `uncertainty: 0.5`). -/
def c3StateUncertain : EmbodimentState :=
  { environment := { hazards := ["machinery", "heights"], uncertainty := 0.5 },
    detected_entities := [c3Human] }

/-- `{type: MOVE, target: <position exactly 1 m from the human>, speed: 1.5}`. -/
def c3MoveAtOneMetre : Command :=
  { ctype := "MOVE", target := some (.coords [1, 0]), speed := some 1.5 }

/-- `{type: MOVE, target: <position 0.9 m from the human>, speed: 1.5}`. -/
def c3MoveWithinOneMetre : Command :=
  { ctype := "MOVE", target := some (.coords [0.9, 0]), speed := some 1.5 }

unseal Rat.ofScientific Rat.mul Rat.add Rat.sub Rat.inv in
/-- C3 counterexample: with the move target at distance exactly 1 m from
the detected human, the proximity branch (`dist_to_human < 1.0`) does not
fire; the estimate is `max(0.45, 0.5) = 0.5` (high speed near human, and
heights hazard), which does not exceed the 0.65 threshold, and `check_all`
returns no violation at all rather than a lethal-action block; even with
the layer's default declared uncertainty of 0.5 the estimate is only 0.6
and still no violation is returned. -/
theorem c3_lethal_move_counterexample :
    UndeliberableRegistry.check_lethal_action [c3MoveAtOneMetre] c3State = 0.5 ∧
    ¬ UndeliberableRegistry.check_lethal_action [c3MoveAtOneMetre] c3State >
        UndeliberableRegistry.LETHAL_PROBABILITY_THRESHOLD ∧
    UndeliberableRegistry.check_all [c3MoveAtOneMetre] c3State = none ∧
    UndeliberableRegistry.check_lethal_action [c3MoveAtOneMetre]
      c3StateUncertain = 0.6 ∧
    UndeliberableRegistry.check_all [c3MoveAtOneMetre] c3StateUncertain = none := by
  refine ⟨by decide, by decide, by decide, by decide, by decide⟩

unseal Rat.ofScientific Rat.mul Rat.add Rat.sub Rat.inv in
/-- C3 amended: with the move target strictly within 1 m of the detected
human (here 0.9 m) and speed 1.5 plus hazards `["machinery", "heights"]`,
the estimate is `0.5 + 1.5 x 0.2 = 0.8 > 0.65` and `check_all` returns the
lethal-action violation. -/
theorem c3_lethal_move_amended :
    UndeliberableRegistry.check_lethal_action [c3MoveWithinOneMetre] c3State = 0.8 ∧
    UndeliberableRegistry.check_lethal_action [c3MoveWithinOneMetre] c3State >
        UndeliberableRegistry.LETHAL_PROBABILITY_THRESHOLD ∧
    UndeliberableRegistry.check_all [c3MoveWithinOneMetre] c3State =
      some UndeliberableRegistry.LETHAL_ACTION := by
  refine ⟨by decide, by decide, by decide⟩

/-- Helper: with no HUMAN-typed entity detected, the human filter of
`_check_lethal_action` is empty. -/
theorem humans_filter_empty (state : EmbodimentState)
    (h : ∀ e ∈ state.detected_entities, e.entity_type ≠ EntityType.HUMAN) :
    state.detected_entities.filter
      (fun e => e.entity_type == EntityType.HUMAN) = [] := by
  rw [List.filter_eq_nil_iff]
  intro e he
  simp [h e he]

/-- Helper: with no HUMAN-typed entity detected, the lethal-probability
estimator returns exactly 0. -/
theorem lethal_zero_of_no_humans (commands : List Command)
    (state : EmbodimentState)
    (h : ∀ e ∈ state.detected_entities, e.entity_type ≠ EntityType.HUMAN) :
    UndeliberableRegistry.check_lethal_action commands state = 0 := by
  unfold UndeliberableRegistry.check_lethal_action
  rw [humans_filter_empty state h]
  norm_num

/-- C10: for every command list and every state whose detected entities
contain no entity typed HUMAN, the lethal-probability estimator returns
exactly 0.0, and `check_all` never returns the lethal-action violation in
such a state (whatever the commands, hazards, speeds or forces, and in
particular when the only person present is typed CHILD). -/
theorem c10_no_lethal_without_humans (commands : List Command)
    (state : EmbodimentState)
    (h : ∀ e ∈ state.detected_entities, e.entity_type ≠ EntityType.HUMAN) :
    UndeliberableRegistry.check_lethal_action commands state = 0 ∧
    UndeliberableRegistry.check_all commands state ≠
      some UndeliberableRegistry.LETHAL_ACTION := by
  have hz := lethal_zero_of_no_humans commands state h
  refine ⟨hz, ?_⟩
  unfold UndeliberableRegistry.check_all
  rw [hz]
  split_ifs with h1 h2 h3 h4 h5
  · intro hc
    have : UndeliberableRegistry.HUMAN_OVERRIDE =
        UndeliberableRegistry.LETHAL_ACTION := by
      exact Option.some.inj hc
    simp [UndeliberableRegistry.HUMAN_OVERRIDE,
      UndeliberableRegistry.LETHAL_ACTION] at this
  · exfalso
    rw [UndeliberableRegistry.LETHAL_PROBABILITY_THRESHOLD] at h2
    norm_num at h2
  · intro hc
    have : UndeliberableRegistry.CHILD_HARM =
        UndeliberableRegistry.LETHAL_ACTION := Option.some.inj hc
    simp [UndeliberableRegistry.CHILD_HARM,
      UndeliberableRegistry.LETHAL_ACTION] at this
  · intro hc
    have : UndeliberableRegistry.WEAPON_ASSISTANCE =
        UndeliberableRegistry.LETHAL_ACTION := Option.some.inj hc
    simp [UndeliberableRegistry.WEAPON_ASSISTANCE,
      UndeliberableRegistry.LETHAL_ACTION] at this
  · intro hc
    have : UndeliberableRegistry.IDENTITY_DECEPTION =
        UndeliberableRegistry.LETHAL_ACTION := Option.some.inj hc
    simp [UndeliberableRegistry.IDENTITY_DECEPTION,
      UndeliberableRegistry.LETHAL_ACTION] at this
  · exact Option.noConfusion

/-- The only person present is a CHILD-typed toddler; the manipulation is
forceful and the environment is hazardous. -/
def c10State : EmbodimentState :=
  { environment := { hazards := ["machinery", "heights"], uncertainty := 1 },
    detected_entities :=
      [ { entity_id := "child_1", entity_type := .CHILD,
          description := "small toddler", confidence := 0.5 } ] }

/-- A forceful manipulation command aimed at the child. -/
def c10Command : Command :=
  { ctype := "MANIPULATE", target := some (.str "child_1"),
    force := some 50, action := some "grab" }

/-- C10 witness: on the child-only hazardous state and a force-50 grab,
the theorem applies: the estimator returns 0 and no lethal-action
violation is possible. -/
theorem c10_no_lethal_without_humans_witness :
    (∀ e ∈ c10State.detected_entities, e.entity_type ≠ EntityType.HUMAN) ∧
    UndeliberableRegistry.check_lethal_action [c10Command] c10State = 0 ∧
    UndeliberableRegistry.check_all [c10Command] c10State ≠
      some UndeliberableRegistry.LETHAL_ACTION := by
  have h : ∀ e ∈ c10State.detected_entities, e.entity_type ≠ EntityType.HUMAN := by
    decide
  exact ⟨h, c10_no_lethal_without_humans [c10Command] c10State h⟩

/-- A child detected as a HUMAN-typed entity (childhood recognized from
the description keyword "boy"). -/
def c4Boy : DetectedEntity :=
  { entity_id := "child_1", entity_type := .HUMAN, description := "small boy" }

/-- State with the boy as the only detected entity: a detected child and
no other (non-child) human. -/
def c4BoyState : EmbodimentState := { detected_entities := [c4Boy] }

/-- A high-force manipulation aimed at the boy. -/
def c4ForcefulCommand : Command :=
  { ctype := "MANIPULATE", target := some (.str "child_1"),
    force := some 15, action := some "hold" }

unseal Rat.ofScientific Rat.mul Rat.add Rat.sub Rat.inv in
/-- C4 counterexample: the scene holds a detected child (`is_child` fires
on "boy") and no other human, and the command is a MANIPULATE targeting
that child; yet because the child is typed HUMAN and the force is 15, the
higher-priority lethal check fires first (0.4 + 15 x 0.08 = 1.6 > 0.65)
and `check_all` returns the lethal-action violation, not child-harm. -/
theorem c4_child_harm_counterexample :
    UndeliberableRegistry.is_child c4Boy = true ∧
    c4BoyState.detected_entities.all UndeliberableRegistry.is_child = true ∧
    UndeliberableRegistry.check_all [c4ForcefulCommand] c4BoyState =
      some UndeliberableRegistry.LETHAL_ACTION ∧
    UndeliberableRegistry.LETHAL_ACTION ≠ UndeliberableRegistry.CHILD_HARM := by
  refine ⟨by decide, by decide, by decide, by decide⟩

/-- C4 amended: in a state with no override flag set and no HUMAN-typed
entity (so the lethal estimate is 0 and cannot preempt, e.g. the child is
typed CHILD), any MANIPULATE command whose target refers to a detected
child makes `check_all` return the child-harm violation, regardless of the
command's force value. -/
theorem c4_child_manipulation_blocked (state : EmbodimentState)
    (cmd : Command) (child : DetectedEntity)
    (hov : UndeliberableRegistry.check_human_override state = false)
    (hnh : ∀ e ∈ state.detected_entities, e.entity_type ≠ EntityType.HUMAN)
    (hmem : child ∈ state.detected_entities)
    (hchild : UndeliberableRegistry.is_child child = true)
    (htype : cmd.ctype = "MANIPULATE")
    (htarget : (strIn (pyLower child.entity_id) (pyLower (cmdTargetText cmd.target)) ||
        strIn "child" (pyLower (cmdTargetText cmd.target)) ||
        strIn "kid" (pyLower (cmdTargetText cmd.target))) = true) :
    UndeliberableRegistry.check_all [cmd] state =
      some UndeliberableRegistry.CHILD_HARM := by
  have hz := lethal_zero_of_no_humans [cmd] state hnh
  have hmemf : child ∈ state.detected_entities.filter UndeliberableRegistry.is_child :=
    List.mem_filter.mpr ⟨hmem, hchild⟩
  have hnonempty :
      (state.detected_entities.filter UndeliberableRegistry.is_child).isEmpty = false := by
    rcases hfe : state.detected_entities.filter UndeliberableRegistry.is_child with _ | ⟨a, l⟩
    · rw [hfe] at hmemf
      cases hmemf
    · rfl
  have hcare : state.detected_entities.any
      (fun e => e.entity_type == EntityType.HUMAN &&
        ! UndeliberableRegistry.is_child e) = false := by
    rw [List.any_eq_false]
    intro e he
    simp [hnh e he]
  have hhit : UndeliberableRegistry.childHarmHit false cmd child = true := by
    unfold UndeliberableRegistry.childHarmHit
    rw [if_pos htarget]
    simp [htype]
  have hchh : UndeliberableRegistry.check_child_harm [cmd] state = true := by
    unfold UndeliberableRegistry.check_child_harm
    simp only [hnonempty, hcare, Bool.false_eq_true, if_false, List.any_cons,
      List.any_nil, Bool.or_false]
    exact List.any_eq_true.mpr ⟨child, hmemf, hhit⟩
  unfold UndeliberableRegistry.check_all
  rw [hov, hz, hchh]
  norm_num [UndeliberableRegistry.LETHAL_PROBABILITY_THRESHOLD]

/-- A CHILD-typed detected child, alone in the scene. -/
def c4ChildState : EmbodimentState :=
  { detected_entities :=
      [ { entity_id := "child_1", entity_type := .CHILD,
          description := "small child" } ] }

/-- A gentle (force 0.1) manipulation aimed at the child. -/
def c4GentleCommand : Command :=
  { ctype := "MANIPULATE", target := some (.str "child_1"),
    force := some 0.1, action := some "guide" }

unseal Rat.ofScientific Rat.mul Rat.add Rat.sub Rat.inv in
/-- C4 witness: the amended theorem applied to the CHILD-typed scene and
a gentle manipulation; the block fires even at force 0.1. -/
theorem c4_child_manipulation_blocked_witness :
    UndeliberableRegistry.check_human_override c4ChildState = false ∧
    UndeliberableRegistry.is_child
      { entity_id := "child_1", entity_type := .CHILD,
        description := "small child" } = true ∧
    UndeliberableRegistry.check_all [c4GentleCommand] c4ChildState =
      some UndeliberableRegistry.CHILD_HARM := by
  refine ⟨by decide, by decide, ?_⟩
  exact c4_child_manipulation_blocked c4ChildState c4GentleCommand
    { entity_id := "child_1", entity_type := .CHILD,
      description := "small child" }
    (by decide) (by decide) (by decide) (by decide) (by decide) (by decide)

-- ===========================================================================
-- The EmbodimentLayer (halt latch, command execution)
-- ===========================================================================

/-- The per-command result record of command execution (`reason` strings
and echoed parameters are audit metadata and dropped; for a dict with no
`type` key the echoed name is modelled as `""` where the source echoes
`"UNKNOWN"` — no claim reads the echo). -/
structure CommandResult where
  command : String
  success : Bool
  deriving DecidableEq, Repr

/-- The result dict of `execute_commands`. -/
structure ExecResult where
  success : Bool
  blocked : Bool := false
  undeliberable : Option String := none
  halted : Bool := false
  results : List CommandResult
  deriving DecidableEq, Repr

/-- `EmbodimentLayer` runtime state.  The `VirtualEmbodiment` capability
object is an external collaborator and appears here only through its
validation predicate `validate`; the sensor ring buffer holds data nothing
in the embedded checks reads and is reduced to the running `current_time`
it maintains. -/
structure EmbodimentLayer where
  validate : Command → Bool
  current_time : ℚ := 0
  motor_status : String := "idle"
  motor_position : List ℚ := [0, 0, 0]
  motor_speed : ℚ := 0
  motor_target : Option TargetVal := none
  motor_rotation : ℚ := 0
  environment : Environment := { uncertainty := 0.5 }
  detected_entities : List DetectedEntity := []
  commands_executed : ℕ := 0
  commands_rejected : ℕ := 0
  violations : List Undeliberable := []
  halted : Bool := false

namespace EmbodimentLayer

/-- `EmbodimentLayer.get_current_state`. -/
def get_current_state (e : EmbodimentLayer) : EmbodimentState :=
  { motor_position := e.motor_position,
    environment := e.environment,
    detected_entities := e.detected_entities }

/-- `EmbodimentLayer.clear_halt`. -/
def clear_halt (e : EmbodimentLayer) : EmbodimentLayer :=
  { e with
    halted := false,
    environment := { e.environment with
      human_override := false,
      stop_commanded := false,
      emergency_stop := false } }

/-- `EmbodimentLayer.update_environment` (`dict.update`); the update is
modelled as an arbitrary transformation of the environment record, a
superset of what any Python update dict can do to the read keys. -/
def update_environment (e : EmbodimentLayer) (f : Environment → Environment) :
    EmbodimentLayer :=
  { e with environment := f e.environment }

/-- `EmbodimentLayer.add_entity` (keyed upsert into the entity dict,
preserving insertion order as Python dicts do). -/
def add_entity (e : EmbodimentLayer) (ent : DetectedEntity) : EmbodimentLayer :=
  let updated :=
    if e.detected_entities.any (fun x => x.entity_id == ent.entity_id) then
      e.detected_entities.map
        (fun x => if x.entity_id == ent.entity_id then ent else x)
    else e.detected_entities ++ [ent]
  { e with detected_entities := updated }

/-- `EmbodimentLayer.process_sensor_reading` reduced to its effect on
`current_time` (the buffered reading itself is never read back). -/
def process_sensor_reading (e : EmbodimentLayer) (t : ℚ) : EmbodimentLayer :=
  { e with current_time := max e.current_time t }

/-- `EmbodimentLayer._execute_single_command`. -/
def execute_single (e : EmbodimentLayer) (cmd : Command) :
    EmbodimentLayer × CommandResult :=
  if cmd.ctype == "MOVE" then
    let speed := cmd.speed.getD 1.0
    let e1 := { e with
      motor_status := "moving",
      motor_target := cmd.target,
      motor_speed := speed }
    match cmd.target with
    | some (.coords l) =>
      ({ e1 with motor_position := l ++ List.replicate (3 - l.length) 0.0 },
       ⟨"MOVE", true⟩)
    | _ => (e1, ⟨"MOVE", true⟩)
  else if cmd.ctype == "STOP" then
    ({ e with motor_status := "idle", motor_speed := 0 }, ⟨"STOP", true⟩)
  else if cmd.ctype == "ROTATE" then
    ({ e with motor_status := "rotating", motor_rotation := cmd.degrees.getD 0 },
     ⟨"ROTATE", true⟩)
  else if cmd.ctype == "SPEAK" then (e, ⟨"SPEAK", true⟩)
  else if cmd.ctype == "DISPLAY" then (e, ⟨"DISPLAY", true⟩)
  else if cmd.ctype == "MANIPULATE" then (e, ⟨"MANIPULATE", true⟩)
  else if cmd.ctype == "ALERT" then (e, ⟨"ALERT", true⟩)
  else if cmd.ctype == "WAIT" then
    ({ e with current_time := e.current_time + cmd.duration.getD 1.0 },
     ⟨"WAIT", true⟩)
  else (e, ⟨cmd.ctype, false⟩)

/-- The validate-then-execute loop of `execute_commands` (the part after
the halt gate and the undeliberable gate). -/
def run_commands (e : EmbodimentLayer) :
    List Command → EmbodimentLayer × List CommandResult
  | [] => (e, [])
  | cmd :: rest =>
    if e.validate cmd then
      let step := e.execute_single cmd
      let e1 := { step.1 with commands_executed := step.1.commands_executed + 1 }
      let tail := e1.run_commands rest
      (tail.1, step.2 :: tail.2)
    else
      let e1 := { e with commands_rejected := e.commands_rejected + 1 }
      let tail := e1.run_commands rest
      (tail.1, ⟨cmd.ctype, false⟩ :: tail.2)

/-- `EmbodimentLayer.execute_commands`: halt gate, undeliberable gate,
then validation and execution. -/
def execute_commands (e : EmbodimentLayer) (commands : List Command) :
    EmbodimentLayer × ExecResult :=
  if e.halted then
    (e, { success := false, blocked := true, results := [] })
  else
    match UndeliberableRegistry.check_all commands e.get_current_state with
    | some u =>
      let e1 := { e with violations := e.violations ++ [u] }
      if u.response == BlockResponse.IMMEDIATE_HALT then
        ({ e1 with
            halted := true,
            motor_status := "halted" },
         { success := false,
           blocked := true,
           undeliberable := some u.name,
           halted := true,
           results := [] })
      else
        (e1,
         { success := false,
           blocked := true,
           undeliberable := some u.name,
           results := [] })
    | none =>
      let run := e.run_commands commands
      (run.1, { success := run.2.all (fun r => r.success), results := run.2 })

end EmbodimentLayer

/-- The operations that `process_sensor_update` and
`_run_deliberation_cycle` (the normal deliberation flow, source lines
4309 to 4405) invoke on the embodiment layer.  `clear_halt` is not among
them: in the source it is called only from demonstration code, never from
the cycle. -/
inductive CycleEmbOp
  | updateEnvironment (f : Environment → Environment)
  | addEntity (ent : DetectedEntity)
  | processSensorReading (t : ℚ)
  | executeCommands (cmds : List Command)

/-- Effect of one deliberation-flow operation on the embodiment layer. -/
def CycleEmbOp.apply (e : EmbodimentLayer) : CycleEmbOp → EmbodimentLayer
  | .updateEnvironment f => e.update_environment f
  | .addEntity ent => e.add_entity ent
  | .processSensorReading t => e.process_sensor_reading t
  | .executeCommands cmds => (e.execute_commands cmds).1

/-- Effect of a sequence of deliberation-flow operations. -/
def applyCycleOps (e : EmbodimentLayer) : List CycleEmbOp → EmbodimentLayer
  | [] => e
  | op :: rest => applyCycleOps (op.apply e) rest

/-- Helper: every deliberation-flow operation preserves a set halt flag. -/
theorem cycle_op_preserves_halt (e : EmbodimentLayer) (op : CycleEmbOp)
    (h : e.halted = true) : (op.apply e).halted = true := by
  cases op with
  | updateEnvironment f => exact h
  | addEntity ent => exact h
  | processSensorReading t => exact h
  | executeCommands cmds =>
    show (e.execute_commands cmds).1.halted = true
    unfold EmbodimentLayer.execute_commands
    rw [h]
    simpa using h

/-- C5: once the halt flag is set, every call to `execute_commands` is
rejected as blocked with no results and leaves the layer completely
unchanged (so no command executes and the motor state cannot change);
the whole normal deliberation flow, which never invokes `clear_halt`,
preserves the flag; an IMMEDIATE_HALT violation is what sets it; and only
`clear_halt` resets it. -/
theorem c5_halt_latched (e : EmbodimentLayer) (h : e.halted = true) :
    (∀ commands, e.execute_commands commands =
      (e, { success := false, blocked := true, results := [] })) ∧
    (∀ ops, (applyCycleOps e ops).halted = true) ∧
    (∀ (e2 : EmbodimentLayer) (commands : List Command) (u : Undeliberable),
      e2.halted = false →
      UndeliberableRegistry.check_all commands e2.get_current_state = some u →
      u.response = BlockResponse.IMMEDIATE_HALT →
      (e2.execute_commands commands).1.halted = true ∧
        (e2.execute_commands commands).2.blocked = true ∧
        (e2.execute_commands commands).2.results = []) ∧
    e.clear_halt.halted = false := by
  refine ⟨?_, ?_, ?_, rfl⟩
  · intro commands
    unfold EmbodimentLayer.execute_commands
    rw [h]
    rfl
  · intro ops
    induction ops generalizing e with
    | nil => exact h
    | cons op rest ih =>
      exact ih _ (cycle_op_preserves_halt e op h)
  · intro e2 commands u h0 hca hresp
    unfold EmbodimentLayer.execute_commands
    rw [h0, hca]
    simp [hresp]

/-- A concrete halted embodiment layer (validator accepts everything). -/
def c5HaltedLayer : EmbodimentLayer := { validate := fun _ => true, halted := true }

/-- A concrete stop command. -/
def c5StopCommand : Command := { ctype := "STOP" }

/-- C5 witness: the theorem applied to a concrete halted layer; a STOP
command is blocked with no results and no state change, the flag survives
a full cycle's worth of operations, and `clear_halt` resets it. -/
theorem c5_halt_latched_witness :
    c5HaltedLayer.halted = true ∧
    c5HaltedLayer.execute_commands [c5StopCommand] =
      (c5HaltedLayer, { success := false, blocked := true, results := [] }) ∧
    (applyCycleOps c5HaltedLayer
      [.processSensorReading 3, .executeCommands [c5StopCommand]]).halted = true ∧
    c5HaltedLayer.clear_halt.halted = false := by
  have h : c5HaltedLayer.halted = true := rfl
  have main := c5_halt_latched c5HaltedLayer h
  exact ⟨h, main.1 [c5StopCommand],
    main.2.1 [.processSensorReading 3, .executeCommands [c5StopCommand]],
    main.2.2.2⟩

-- ===========================================================================
-- The ConsciousLayer: voting, tiebreaking, outcome feedback
-- ===========================================================================

/-- `class AspectType(Enum)`: the six committee proposers. -/
inductive AspectType
  | GUARDIAN | ANALYST | OPTIMIZER | EMPATH | EXPLORER | PRAGMATIST
  deriving DecidableEq, Repr, Fintype

/-- `ProposedAction`, reduced to the fields vote resolution reads (the
description, commands, rationale, confidence and audit components play no
role in `resolve_votes` or `_tiebreaker_choose`). -/
structure ProposedAction where
  aspect : AspectType
  vote_strength : ℚ
  deriving DecidableEq, Repr

namespace ConsciousLayer

/-- `TIE_THRESHOLD = 0.15`. -/
def TIE_THRESHOLD : ℚ := 0.15

/-- `TIEBREAKER_ORDER`: the fixed rotation list. -/
def TIEBREAKER_ORDER : List AspectType :=
  [.GUARDIAN, .EMPATH, .ANALYST, .PRAGMATIST, .OPTIMIZER, .EXPLORER]

/-- `MIN_WEIGHT = 0.1` in `update_from_outcome`. -/
def MIN_WEIGHT : ℚ := 0.1

/-- `MAX_WEIGHT = 5.0` in `update_from_outcome`. -/
def MAX_WEIGHT : ℚ := 5.0

/-- The quality-banded multiplicative adjustment of `update_from_outcome`
(branches in source order). -/
def adjustment (quality : ℚ) : ℚ :=
  if quality > 0.7 then 1.05 + (quality - 0.7) * 0.1
  else if quality > 0.5 then 1.01 + (quality - 0.5) * 0.02
  else if quality < 0.3 then 0.92 - (0.3 - quality) * 0.1
  else if quality < 0.5 then 0.98 - (0.5 - quality) * 0.03
  else 1.0

/-- The clamped multiplicative weight update of `update_from_outcome`. -/
def update_weight (w quality : ℚ) : ℚ :=
  pyMax MIN_WEIGHT (pyMin MAX_WEIGHT (w * adjustment quality))

/-- `update_from_outcome` restricted to its effect on the personality
weight table: only the acting aspect's entry changes (the confidence
smoothing of the aspect object is a separate scalar, not a weight). -/
def update_from_outcome (weights : AspectType → ℚ) (aspect : AspectType)
    (quality : ℚ) : AspectType → ℚ :=
  fun a => if a = aspect then update_weight (weights aspect) quality else weights a

/-- `self._personality_weights = {at: 1.0 for at in AspectType}`. -/
def initialPersonalityWeights : AspectType → ℚ := fun _ => 1.0

/-- `n` successive outcome updates for the same aspect and quality. -/
def iterate_updates (weights : AspectType → ℚ) (aspect : AspectType)
    (quality : ℚ) : ℕ → (AspectType → ℚ)
  | 0 => weights
  | n + 1 => update_from_outcome (iterate_updates weights aspect quality n)
      aspect quality

/-- The scalar trace of `iterate_updates` on the acting aspect. -/
def iterate_weight (quality w : ℚ) : ℕ → ℚ
  | 0 => w
  | n + 1 => update_weight (iterate_weight quality w n) quality

/-- Helper: iterated updates act on the chosen aspect as the scalar
iteration. -/
theorem iterate_updates_self (weights : AspectType → ℚ) (aspect : AspectType)
    (quality : ℚ) (n : ℕ) :
    iterate_updates weights aspect quality n aspect =
      iterate_weight quality (weights aspect) n := by
  induction n with
  | zero => rfl
  | succ n ih =>
    show update_from_outcome _ _ _ _ = _
    unfold update_from_outcome
    rw [if_pos rfl, ih]
    rfl

/-- Helper: iterated updates leave every other aspect untouched. -/
theorem iterate_updates_other (weights : AspectType → ℚ) (aspect : AspectType)
    (quality : ℚ) (n : ℕ) (x : AspectType) (hx : x ≠ aspect) :
    iterate_updates weights aspect quality n x = weights x := by
  induction n with
  | zero => rfl
  | succ n ih =>
    show update_from_outcome _ _ _ _ = _
    unfold update_from_outcome
    rw [if_neg hx]
    exact ih

end ConsciousLayer

namespace ConsciousLayer

unseal Rat.ofScientific Rat.mul Rat.add Rat.sub Rat.inv in
/-- Helper: quality 0.9 multiplies by exactly 1.07. -/
theorem adjustment_nine_tenths : adjustment 0.9 = 1.07 := by decide

unseal Rat.ofScientific Rat.mul Rat.add Rat.sub Rat.inv in
/-- Helper: quality 0.2 multiplies by exactly 0.91. -/
theorem adjustment_one_fifth : adjustment 0.2 = 0.91 := by decide

unseal Rat.ofScientific Rat.mul Rat.add Rat.sub Rat.inv in
/-- Helper: the first quality-0.9 update moves weight 1 to 1.07. -/
theorem iterate_weight_nine_one : iterate_weight 0.9 1 1 = 1.07 := by decide

unseal Rat.ofScientific Rat.mul Rat.add Rat.sub Rat.inv in
/-- Helper: the first quality-0.2 update moves weight 1 to 0.91. -/
theorem iterate_weight_two_one : iterate_weight 0.2 1 1 = 0.91 := by decide

/-- Helper: from one update on, the quality-0.9 trajectory from weight 1
stays in [1.07, 5]. -/
theorem iterate_weight_nine_bounds : ∀ n : ℕ, 1 ≤ n →
    1.07 ≤ iterate_weight 0.9 1 n ∧ iterate_weight 0.9 1 n ≤ 5 := by
  intro n hn
  induction n with
  | zero => omega
  | succ n ih =>
    rcases Nat.eq_zero_or_pos n with h0 | hpos
    · subst h0
      rw [iterate_weight_nine_one]
      constructor <;> norm_num
    · have ihb := ih hpos
      show 1.07 ≤ update_weight (iterate_weight 0.9 1 n) 0.9 ∧
        update_weight (iterate_weight 0.9 1 n) 0.9 ≤ 5
      rw [update_weight, adjustment_nine_tenths, pyMax, pyMin,
        MIN_WEIGHT, MAX_WEIGHT]
      constructor
      · refine le_trans (le_min (by norm_num) ?_) (le_max_right _ _)
        nlinarith [ihb.1]
      · exact max_le (by norm_num) (le_trans (min_le_left _ _) (by norm_num))

/-- Helper: from one update on, the quality-0.2 trajectory from weight 1
stays in [0.1, 0.91]. -/
theorem iterate_weight_two_bounds : ∀ n : ℕ, 1 ≤ n →
    0.1 ≤ iterate_weight 0.2 1 n ∧ iterate_weight 0.2 1 n ≤ 0.91 := by
  intro n hn
  induction n with
  | zero => omega
  | succ n ih =>
    rcases Nat.eq_zero_or_pos n with h0 | hpos
    · subst h0
      rw [iterate_weight_two_one]
      constructor <;> norm_num
    · have ihb := ih hpos
      show 0.1 ≤ update_weight (iterate_weight 0.2 1 n) 0.2 ∧
        update_weight (iterate_weight 0.2 1 n) 0.2 ≤ 0.91
      rw [update_weight, adjustment_one_fifth, pyMax, pyMin,
        MIN_WEIGHT, MAX_WEIGHT]
      constructor
      · exact le_max_left _ _
      · refine max_le (by norm_num) (le_trans (min_le_right _ _) ?_)
        nlinarith [ihb.2, ihb.1]

end ConsciousLayer

/-- C6: starting from equal weights 1.0, 50 outcome updates of quality 0.9
for proposer `a` and 50 of quality 0.2 for proposer `b` leave `a`'s weight
strictly above 1.0 and `b`'s strictly below 1.0, both within [0.1, 5.0];
each update multiplies by an adjustment lying in the stated quality band
(strong success 1.05-1.08, moderate success 1.01-1.05, neutral 1.0,
moderate failure 0.92-0.98, strong failure 0.89-0.92), clamps to
[0.1, 5.0], and never touches any other proposer's weight (no
renormalization). -/
theorem c6_outcome_feedback_divergence (a b : AspectType) (hab : a ≠ b) :
    (1 < ConsciousLayer.iterate_updates
        (ConsciousLayer.iterate_updates ConsciousLayer.initialPersonalityWeights
          a 0.9 50) b 0.2 50 a ∧
     ConsciousLayer.iterate_updates
        (ConsciousLayer.iterate_updates ConsciousLayer.initialPersonalityWeights
          a 0.9 50) b 0.2 50 a ≤ 5 ∧
     ConsciousLayer.iterate_updates
        (ConsciousLayer.iterate_updates ConsciousLayer.initialPersonalityWeights
          a 0.9 50) b 0.2 50 b < 1 ∧
     0.1 ≤ ConsciousLayer.iterate_updates
        (ConsciousLayer.iterate_updates ConsciousLayer.initialPersonalityWeights
          a 0.9 50) b 0.2 50 b ∧
     0.1 ≤ ConsciousLayer.iterate_updates
        (ConsciousLayer.iterate_updates ConsciousLayer.initialPersonalityWeights
          a 0.9 50) b 0.2 50 a ∧
     ConsciousLayer.iterate_updates
        (ConsciousLayer.iterate_updates ConsciousLayer.initialPersonalityWeights
          a 0.9 50) b 0.2 50 b ≤ 5) ∧
    (∀ q : ℚ, 0.7 < q → q ≤ 1 →
      1.05 ≤ ConsciousLayer.adjustment q ∧ ConsciousLayer.adjustment q ≤ 1.08) ∧
    (∀ q : ℚ, 0.5 < q → q ≤ 0.7 →
      1.01 ≤ ConsciousLayer.adjustment q ∧ ConsciousLayer.adjustment q ≤ 1.05) ∧
    ConsciousLayer.adjustment 0.5 = 1.0 ∧
    (∀ q : ℚ, 0.3 ≤ q → q < 0.5 →
      0.92 ≤ ConsciousLayer.adjustment q ∧ ConsciousLayer.adjustment q ≤ 0.98) ∧
    (∀ q : ℚ, 0 ≤ q → q < 0.3 →
      0.89 ≤ ConsciousLayer.adjustment q ∧ ConsciousLayer.adjustment q ≤ 0.92) ∧
    (∀ w q : ℚ, ConsciousLayer.update_weight w q =
      max 0.1 (min 5.0 (w * ConsciousLayer.adjustment q))) ∧
    (∀ (ws : AspectType → ℚ) (asp : AspectType) (q : ℚ) (x : AspectType),
      x ≠ asp → ConsciousLayer.update_from_outcome ws asp q x = ws x) := by
  have hWa : ConsciousLayer.iterate_updates
      (ConsciousLayer.iterate_updates ConsciousLayer.initialPersonalityWeights
        a 0.9 50) b 0.2 50 a = ConsciousLayer.iterate_weight 0.9 1 50 := by
    rw [ConsciousLayer.iterate_updates_other _ _ _ _ a hab,
      ConsciousLayer.iterate_updates_self,
      show ConsciousLayer.initialPersonalityWeights a = 1 from by
        show (1.0 : ℚ) = 1
        norm_num]
  have hWb : ConsciousLayer.iterate_updates
      (ConsciousLayer.iterate_updates ConsciousLayer.initialPersonalityWeights
        a 0.9 50) b 0.2 50 b = ConsciousLayer.iterate_weight 0.2 1 50 := by
    rw [ConsciousLayer.iterate_updates_self,
      ConsciousLayer.iterate_updates_other _ _ _ _ b (Ne.symm hab),
      show ConsciousLayer.initialPersonalityWeights b = 1 from by
        show (1.0 : ℚ) = 1
        norm_num]
  have hA := ConsciousLayer.iterate_weight_nine_bounds 50 (by norm_num)
  have hB := ConsciousLayer.iterate_weight_two_bounds 50 (by norm_num)
  refine ⟨⟨?_, ?_, ?_, ?_, ?_, ?_⟩, ?_, ?_,
    by unfold ConsciousLayer.adjustment; norm_num, ?_, ?_, ?_, ?_⟩
  · rw [hWa]
    linarith [hA.1]
  · rw [hWa]
    exact hA.2
  · rw [hWb]
    linarith [hB.2]
  · rw [hWb]
    exact hB.1
  · rw [hWa]
    linarith [hA.1]
  · rw [hWb]
    linarith [hB.2]
  · intro q h1 h2
    unfold ConsciousLayer.adjustment
    rw [if_pos h1]
    constructor <;> nlinarith
  · intro q h1 h2
    unfold ConsciousLayer.adjustment
    rw [if_neg (by linarith), if_pos h1]
    constructor <;> nlinarith
  · intro q h1 h2
    unfold ConsciousLayer.adjustment
    rw [if_neg (by linarith), if_neg (by linarith), if_neg (by linarith),
      if_pos h2]
    constructor <;> nlinarith
  · intro q h1 h2
    unfold ConsciousLayer.adjustment
    rw [if_neg (by linarith), if_neg (by linarith), if_pos h2]
    constructor <;> nlinarith
  · intro w q
    rw [ConsciousLayer.update_weight, pyMax, pyMin, ConsciousLayer.MIN_WEIGHT,
      ConsciousLayer.MAX_WEIGHT]
  · intro ws asp q x hx
    unfold ConsciousLayer.update_from_outcome
    rw [if_neg hx]

/-- C6 witness: the theorem applied to GUARDIAN and EXPLORER, with its
band clauses instantiated at concrete qualities 0.9, 0.6, 0.4, 0.1. -/
theorem c6_outcome_feedback_divergence_witness :
    (AspectType.GUARDIAN ≠ AspectType.EXPLORER) ∧
    (1 < ConsciousLayer.iterate_updates
        (ConsciousLayer.iterate_updates ConsciousLayer.initialPersonalityWeights
          AspectType.GUARDIAN 0.9 50) AspectType.EXPLORER 0.2 50
        AspectType.GUARDIAN) ∧
    ((0.7 : ℚ) < 0.9 ∧ (0.9 : ℚ) ≤ 1 ∧
      1.05 ≤ ConsciousLayer.adjustment 0.9 ∧ ConsciousLayer.adjustment 0.9 ≤ 1.08) ∧
    ((0.5 : ℚ) < 0.6 ∧ (0.6 : ℚ) ≤ 0.7 ∧
      1.01 ≤ ConsciousLayer.adjustment 0.6 ∧ ConsciousLayer.adjustment 0.6 ≤ 1.05) ∧
    ((0.3 : ℚ) ≤ 0.4 ∧ (0.4 : ℚ) < 0.5 ∧
      0.92 ≤ ConsciousLayer.adjustment 0.4 ∧ ConsciousLayer.adjustment 0.4 ≤ 0.98) ∧
    ((0 : ℚ) ≤ 0.1 ∧ (0.1 : ℚ) < 0.3 ∧
      0.89 ≤ ConsciousLayer.adjustment 0.1 ∧ ConsciousLayer.adjustment 0.1 ≤ 0.92) ∧
    (AspectType.ANALYST ≠ AspectType.GUARDIAN →
      ConsciousLayer.update_from_outcome ConsciousLayer.initialPersonalityWeights
        AspectType.GUARDIAN 0.9 AspectType.ANALYST =
        ConsciousLayer.initialPersonalityWeights AspectType.ANALYST) := by
  have hab : AspectType.GUARDIAN ≠ AspectType.EXPLORER := by decide
  have main := c6_outcome_feedback_divergence AspectType.GUARDIAN
    AspectType.EXPLORER hab
  have h09 : (0.7 : ℚ) < 0.9 ∧ (0.9 : ℚ) ≤ 1 := by norm_num
  have h06 : (0.5 : ℚ) < 0.6 ∧ (0.6 : ℚ) ≤ 0.7 := by norm_num
  have h04 : (0.3 : ℚ) ≤ 0.4 ∧ (0.4 : ℚ) < 0.5 := by norm_num
  have h01 : (0 : ℚ) ≤ 0.1 ∧ (0.1 : ℚ) < 0.3 := by norm_num
  refine ⟨hab, main.1.1, ⟨h09.1, h09.2, main.2.1 0.9 h09.1 h09.2⟩,
    ⟨h06.1, h06.2, main.2.2.1 0.6 h06.1 h06.2⟩,
    ⟨h04.1, h04.2, main.2.2.2.2.1 0.4 h04.1 h04.2⟩,
    ⟨h01.1, h01.2, main.2.2.2.2.2.1 0.1 h01.1 h01.2⟩,
    fun hx => main.2.2.2.2.2.2.2 ConsciousLayer.initialPersonalityWeights
      AspectType.GUARDIAN 0.9 AspectType.ANALYST hx⟩

namespace ConsciousLayer

/-- `sorted(permitted, key=vote_strength, reverse=True)`: a stable
descending sort, modelled by insertion sort with the matching relation
(both are stable, hence produce the same list). -/
def sortedByVote (permitted : List ProposedAction) : List ProposedAction :=
  permitted.insertionSort (fun p q => p.vote_strength ≥ q.vote_strength)

/-- `tied = [p for p in sorted_proposals if top_vote - p.vote_strength <= TIE_THRESHOLD]`. -/
def tiedSet (permitted : List ProposedAction) : List ProposedAction :=
  match sortedByVote permitted with
  | [] => []
  | top :: rest =>
    (top :: rest).filter
      (fun p => top.vote_strength - p.vote_strength ≤ TIE_THRESHOLD)

/-- The fixed affinity table of `_tiebreaker_choose`. -/
def aspect_affinity : AspectType → List AspectType
  | .GUARDIAN => [.PRAGMATIST, .ANALYST, .EMPATH]
  | .EMPATH => [.GUARDIAN, .PRAGMATIST, .ANALYST]
  | .ANALYST => [.PRAGMATIST, .OPTIMIZER, .GUARDIAN]
  | .OPTIMIZER => [.ANALYST, .PRAGMATIST, .EXPLORER]
  | .EXPLORER => [.OPTIMIZER, .ANALYST, .EMPATH]
  | .PRAGMATIST => [.ANALYST, .GUARDIAN, .OPTIMIZER]

/-- `_tiebreaker_choose`: own proposal first, then the first affinity ally
with a tied proposal, then the first tied proposal.  (The fallback default
is never reached: `resolve_votes` only calls this with at least two tied
proposals, but a total model needs a value on `[]`.) -/
def tiebreaker_choose (tiebreaker : AspectType)
    (tied_proposals : List ProposedAction) : ProposedAction :=
  match tied_proposals.find? (fun p => p.aspect == tiebreaker) with
  | some p => p
  | none =>
    match (aspect_affinity tiebreaker).findSome?
        (fun ally => tied_proposals.find? (fun p => p.aspect == ally)) with
    | some p => p
    | none => tied_proposals.headD ⟨tiebreaker, 0⟩

/-- `TIEBREAKER_ORDER[i]` with the source's invariant `0 <= i < 6`
carried in the index type (the source initializes the index to 0 and only
ever assigns `(i + 1) % 6`). -/
def orderAt (i : Fin 6) : AspectType :=
  TIEBREAKER_ORDER.get (Fin.cast (by rfl) i)

/-- Result of one `resolve_votes` call: the winner, the tiebreaker index
after the call, and which aspect (if any) broke a tie — the latter is
recorded by the source in the winner's `vote_components` audit map. -/
structure ResolveOutcome where
  winner : Option ProposedAction
  tiebreaker_index : Fin 6
  tiebreaker_used : Option AspectType
  deriving DecidableEq, Repr

/-- `resolve_votes`. -/
def resolve_votes (idx : Fin 6) (permitted : List ProposedAction) :
    ResolveOutcome :=
  if permitted.isEmpty then ⟨none, idx, none⟩
  else
    let sorted := sortedByVote permitted
    if sorted.length = 1 then ⟨sorted.head?, idx, none⟩
    else
      let tied := tiedSet permitted
      if tied.length = 1 then ⟨tied.head?, idx, none⟩
      else
        let tb := orderAt idx
        ⟨some (tiebreaker_choose tb tied), idx + 1, some tb⟩

/-- Folding `resolve_votes` over successive permitted lists, collecting
the tiebreakers used. -/
def run_resolves (idx : Fin 6) :
    List (List ProposedAction) → List (Option AspectType) × Fin 6
  | [] => ([], idx)
  | pls :: rest =>
    let r := resolve_votes idx pls
    let tail := run_resolves r.tiebreaker_index rest
    (r.tiebreaker_used :: tail.1, tail.2)

end ConsciousLayer

namespace ConsciousLayer

/-- Helper: the tied set is never larger than the sorted list. -/
theorem tiedSet_length_le (pls : List ProposedAction) :
    (tiedSet pls).length ≤ (sortedByVote pls).length := by
  unfold tiedSet
  cases hs : sortedByVote pls with
  | nil => simp
  | cons top rest => simpa using List.length_filter_le _ _

/-- Helper: the sort does not change the number of proposals. -/
theorem sortedByVote_length (pls : List ProposedAction) :
    (sortedByVote pls).length = pls.length :=
  (List.perm_insertionSort _ pls).length_eq

/-- Helper: the top proposal always belongs to the tied set, so the tied
set of a nonempty proposal list is nonempty. -/
theorem tiedSet_pos (pls : List ProposedAction) (hne : pls ≠ []) :
    0 < (tiedSet pls).length := by
  have hsne : sortedByVote pls ≠ [] := by
    intro h
    exact hne (((List.perm_insertionSort
      (fun p q => p.vote_strength ≥ q.vote_strength) pls).symm.trans
        (h ▸ List.Perm.refl _)).eq_nil)
  cases hs : sortedByVote pls with
  | nil => exact absurd hs hsne
  | cons top rest =>
    unfold tiedSet
    rw [hs]
    have hmem : top ∈ (top :: rest).filter
        (fun p => top.vote_strength - p.vote_strength ≤ TIE_THRESHOLD) := by
      refine List.mem_filter.mpr ⟨List.mem_cons_self _ _, ?_⟩
      have : top.vote_strength - top.vote_strength ≤ TIE_THRESHOLD := by
        rw [sub_self, TIE_THRESHOLD]
        norm_num
      exact decide_eq_true this
    exact List.length_pos.mpr (List.ne_nil_of_mem hmem)

/-- Helper: when the tied set has at least two members, `resolve_votes`
invokes the current tiebreaker on it and advances the rotation index by
exactly one position (mod 6). -/
theorem resolve_votes_tie (idx : Fin 6) (pls : List ProposedAction)
    (h2 : 2 ≤ (tiedSet pls).length) :
    resolve_votes idx pls =
      ⟨some (tiebreaker_choose (orderAt idx) (tiedSet pls)), idx + 1,
        some (orderAt idx)⟩ := by
  have hplen : 2 ≤ pls.length :=
    le_trans h2 ((tiedSet_length_le pls).trans_eq (sortedByVote_length pls))
  have hne : pls.isEmpty = false := by
    cases pls with
    | nil => simp at hplen
    | cons a l => rfl
  have hs1 : ¬ (sortedByVote pls).length = 1 := by
    rw [sortedByVote_length]
    omega
  have ht1 : ¬ (tiedSet pls).length = 1 := by omega
  unfold resolve_votes
  simp only [hne, Bool.false_eq_true, if_false, if_neg hs1, if_neg ht1]

/-- Helper: when no tie is resolved, the rotation index is untouched. -/
theorem resolve_votes_no_tie (idx : Fin 6) (pls : List ProposedAction)
    (h : (tiedSet pls).length < 2) :
    (resolve_votes idx pls).tiebreaker_index = idx := by
  unfold resolve_votes
  cases hE : pls.isEmpty with
  | true => simp [hE]
  | false =>
    have hne : pls ≠ [] := by
      cases pls with
      | nil => simp at hE
      | cons a l => exact List.cons_ne_nil _ _
    by_cases hs1 : (sortedByVote pls).length = 1
    · simp [hE, hs1]
    · have ht1 : (tiedSet pls).length = 1 := by
        have := tiedSet_pos pls hne
        omega
      simp [hE, hs1, ht1]

/-- Helper: unfolding one step of `run_resolves`. -/
theorem run_resolves_cons (idx : Fin 6) (pls : List ProposedAction)
    (rest : List (List ProposedAction)) :
    run_resolves idx (pls :: rest) =
      ((resolve_votes idx pls).tiebreaker_used ::
          (run_resolves (resolve_votes idx pls).tiebreaker_index rest).1,
        (run_resolves (resolve_votes idx pls).tiebreaker_index rest).2) := rfl

end ConsciousLayer

namespace ConsciousLayer

/-- Helper: if the tiebreaker has a proposal in the tie, the choice is a
tied proposal of the tiebreaker itself. -/
theorem tiebreaker_choose_own (tb : AspectType) (tied : List ProposedAction)
    (p : ProposedAction) (hp : p ∈ tied) (ha : p.aspect = tb) :
    (tiebreaker_choose tb tied).aspect = tb ∧ tiebreaker_choose tb tied ∈ tied := by
  have hsome : (tied.find? (fun q => q.aspect == tb)).isSome := by
    rw [List.find?_isSome]
    exact ⟨p, hp, by simp [ha]⟩
  obtain ⟨q, hq⟩ := Option.isSome_iff_exists.mp hsome
  unfold tiebreaker_choose
  rw [hq]
  have hqa := List.find?_some hq
  exact ⟨by simpa using hqa, List.mem_of_find?_eq_some hq⟩

/-- Helper: scanning the affinity list with `find?` per ally agrees with
the first ally that owns a tied proposal. -/
theorem findSome_of_first_ally (tied : List ProposedAction) :
    ∀ (allies : List AspectType) (ally : AspectType),
    allies.find? (fun a => tied.any (fun p => p.aspect == a)) = some ally →
    ∃ q, allies.findSome? (fun a => tied.find? (fun p => p.aspect == a)) = some q ∧
      q.aspect = ally ∧ q ∈ tied := by
  intro allies
  induction allies with
  | nil => intro ally h; cases h
  | cons a rest ih =>
    intro ally h
    cases hfa : tied.find? (fun p => p.aspect == a) with
    | some q =>
      have hpq : (q.aspect == a) = true := by
        have h2 := List.find?_some hfa
        simpa using h2
      have hany : (tied.any fun p => p.aspect == a) = true := by
        refine List.any_eq_true.mpr ⟨q, List.mem_of_find?_eq_some hfa, ?_⟩
        exact hpq
      rw [List.find?_cons, hany] at h
      cases h
      refine ⟨q, ?_, by simpa using hpq, List.mem_of_find?_eq_some hfa⟩
      rw [List.findSome?_cons, hfa]
    | none =>
      have hany : (tied.any fun p => p.aspect == a) = false := by
        rw [List.any_eq_false]
        intro p hp
        have h2 := List.find?_eq_none.mp hfa p hp
        simpa using h2
      rw [List.find?_cons, hany] at h
      obtain ⟨q, hfs, hqa, hqm⟩ := ih ally h
      refine ⟨q, ?_, hqa, hqm⟩
      rw [List.findSome?_cons, hfa]
      exact hfs

/-- Helper: if the tiebreaker has no proposal in the tie, the choice is
the tied proposal of its nearest declared ally in the affinity table. -/
theorem tiebreaker_choose_ally (tb : AspectType) (tied : List ProposedAction)
    (ally : AspectType)
    (hown : ∀ p ∈ tied, p.aspect ≠ tb)
    (hfirst : (aspect_affinity tb).find?
      (fun a => tied.any (fun p => p.aspect == a)) = some ally) :
    (tiebreaker_choose tb tied).aspect = ally ∧
      tiebreaker_choose tb tied ∈ tied := by
  have hnone : tied.find? (fun q => q.aspect == tb) = none := by
    rw [List.find?_eq_none]
    intro p hp
    simp [hown p hp]
  obtain ⟨q, hfs, hqa, hqm⟩ := findSome_of_first_ally tied (aspect_affinity tb)
    ally hfirst
  unfold tiebreaker_choose
  rw [hnone, hfs]
  exact ⟨hqa, hqm⟩

/-- Helper: if neither the tiebreaker nor any of its allies has a tied
proposal, the choice is the first tied proposal. -/
theorem tiebreaker_choose_first (tb : AspectType) (tied : List ProposedAction)
    (hown : ∀ p ∈ tied, p.aspect ≠ tb)
    (hally : ∀ a ∈ aspect_affinity tb, ∀ p ∈ tied, p.aspect ≠ a) :
    tiebreaker_choose tb tied = tied.headD ⟨tb, 0⟩ := by
  have hnone : tied.find? (fun q => q.aspect == tb) = none := by
    rw [List.find?_eq_none]
    intro p hp
    simp [hown p hp]
  have hfs : (aspect_affinity tb).findSome?
      (fun a => tied.find? (fun p => p.aspect == a)) = none := by
    rw [List.findSome?_eq_none_iff]
    intro a ha
    rw [List.find?_eq_none]
    intro p hp
    simp [hally a ha p hp]
  unfold tiebreaker_choose
  rw [hnone, hfs]

end ConsciousLayer

/-- C7: the tiebreaker rotation advances by exactly one position (mod 6)
each time a tie is resolved and is untouched otherwise (and nothing else
writes the index), so six consecutive tie resolutions visit all six
proposers exactly once, in the fixed cyclic order, before any repeat; a
tie is resolved by the current tiebreaker choosing its own tied proposal
if present, else the tied proposal of its nearest declared ally in the
fixed affinity table, else the first tied proposal. -/
theorem c7_tiebreaker_rotation :
    (∀ (idx : Fin 6) (pls : List ProposedAction),
      2 ≤ (ConsciousLayer.tiedSet pls).length →
      ConsciousLayer.resolve_votes idx pls =
        ⟨some (ConsciousLayer.tiebreaker_choose (ConsciousLayer.orderAt idx)
            (ConsciousLayer.tiedSet pls)), idx + 1,
          some (ConsciousLayer.orderAt idx)⟩) ∧
    (∀ (idx : Fin 6) (pls : List ProposedAction),
      (ConsciousLayer.tiedSet pls).length < 2 →
      (ConsciousLayer.resolve_votes idx pls).tiebreaker_index = idx) ∧
    (∀ (idx : Fin 6) (l0 l1 l2 l3 l4 l5 : List ProposedAction),
      2 ≤ (ConsciousLayer.tiedSet l0).length →
      2 ≤ (ConsciousLayer.tiedSet l1).length →
      2 ≤ (ConsciousLayer.tiedSet l2).length →
      2 ≤ (ConsciousLayer.tiedSet l3).length →
      2 ≤ (ConsciousLayer.tiedSet l4).length →
      2 ≤ (ConsciousLayer.tiedSet l5).length →
      (ConsciousLayer.run_resolves idx [l0, l1, l2, l3, l4, l5]).1 =
        [some (ConsciousLayer.orderAt idx),
         some (ConsciousLayer.orderAt (idx + 1)),
         some (ConsciousLayer.orderAt (idx + 2)),
         some (ConsciousLayer.orderAt (idx + 3)),
         some (ConsciousLayer.orderAt (idx + 4)),
         some (ConsciousLayer.orderAt (idx + 5))] ∧
      [ConsciousLayer.orderAt idx, ConsciousLayer.orderAt (idx + 1),
        ConsciousLayer.orderAt (idx + 2), ConsciousLayer.orderAt (idx + 3),
        ConsciousLayer.orderAt (idx + 4),
        ConsciousLayer.orderAt (idx + 5)].Nodup ∧
      (∀ a : AspectType, a ∈
        [ConsciousLayer.orderAt idx, ConsciousLayer.orderAt (idx + 1),
         ConsciousLayer.orderAt (idx + 2), ConsciousLayer.orderAt (idx + 3),
         ConsciousLayer.orderAt (idx + 4), ConsciousLayer.orderAt (idx + 5)])) ∧
    (∀ (tb : AspectType) (tied : List ProposedAction) (p : ProposedAction),
      p ∈ tied → p.aspect = tb →
      (ConsciousLayer.tiebreaker_choose tb tied).aspect = tb ∧
        ConsciousLayer.tiebreaker_choose tb tied ∈ tied) ∧
    (∀ (tb : AspectType) (tied : List ProposedAction) (ally : AspectType),
      (∀ p ∈ tied, p.aspect ≠ tb) →
      (ConsciousLayer.aspect_affinity tb).find?
        (fun a => tied.any (fun p => p.aspect == a)) = some ally →
      (ConsciousLayer.tiebreaker_choose tb tied).aspect = ally ∧
        ConsciousLayer.tiebreaker_choose tb tied ∈ tied) ∧
    (∀ (tb : AspectType) (tied : List ProposedAction),
      (∀ p ∈ tied, p.aspect ≠ tb) →
      (∀ a ∈ ConsciousLayer.aspect_affinity tb, ∀ p ∈ tied, p.aspect ≠ a) →
      ConsciousLayer.tiebreaker_choose tb tied = tied.headD ⟨tb, 0⟩) := by
  refine ⟨ConsciousLayer.resolve_votes_tie, ConsciousLayer.resolve_votes_no_tie,
    ?_, ConsciousLayer.tiebreaker_choose_own, ConsciousLayer.tiebreaker_choose_ally,
    ConsciousLayer.tiebreaker_choose_first⟩
  intro idx l0 l1 l2 l3 l4 l5 h0 h1 h2 h3 h4 h5
  have e2 : ∀ j : Fin 6, j + 1 + 1 = j + 2 := by decide
  have e3 : ∀ j : Fin 6, j + 2 + 1 = j + 3 := by decide
  have e4 : ∀ j : Fin 6, j + 3 + 1 = j + 4 := by decide
  have e5 : ∀ j : Fin 6, j + 4 + 1 = j + 5 := by decide
  refine ⟨?_, ?_, ?_⟩
  · rw [ConsciousLayer.run_resolves_cons, ConsciousLayer.resolve_votes_tie idx l0 h0]
    dsimp only
    rw [ConsciousLayer.run_resolves_cons, ConsciousLayer.resolve_votes_tie _ l1 h1]
    dsimp only
    rw [e2, ConsciousLayer.run_resolves_cons,
      ConsciousLayer.resolve_votes_tie _ l2 h2]
    dsimp only
    rw [e3, ConsciousLayer.run_resolves_cons,
      ConsciousLayer.resolve_votes_tie _ l3 h3]
    dsimp only
    rw [e4, ConsciousLayer.run_resolves_cons,
      ConsciousLayer.resolve_votes_tie _ l4 h4]
    dsimp only
    rw [e5, ConsciousLayer.run_resolves_cons,
      ConsciousLayer.resolve_votes_tie _ l5 h5]
    rfl
  · exact (by decide :
      ∀ j : Fin 6, [ConsciousLayer.orderAt j, ConsciousLayer.orderAt (j + 1),
        ConsciousLayer.orderAt (j + 2), ConsciousLayer.orderAt (j + 3),
        ConsciousLayer.orderAt (j + 4), ConsciousLayer.orderAt (j + 5)].Nodup) idx
  · exact (by decide :
      ∀ (j : Fin 6) (a : AspectType), a ∈
        [ConsciousLayer.orderAt j, ConsciousLayer.orderAt (j + 1),
         ConsciousLayer.orderAt (j + 2), ConsciousLayer.orderAt (j + 3),
         ConsciousLayer.orderAt (j + 4), ConsciousLayer.orderAt (j + 5)]) idx

/-- A two-way tie at vote 0.5. -/
def c7TieList : List ProposedAction :=
  [⟨.GUARDIAN, 0.5⟩, ⟨.ANALYST, 0.5⟩]

/-- A clear-winner list (0.9 versus 0.1). -/
def c7ClearList : List ProposedAction :=
  [⟨.GUARDIAN, 0.9⟩, ⟨.ANALYST, 0.1⟩]

/-- A tie not involving GUARDIAN, with its second-nearest ally ANALYST. -/
def c7AllyTie : List ProposedAction :=
  [⟨.ANALYST, 0.5⟩, ⟨.EMPATH, 0.5⟩]

/-- A tie with neither GUARDIAN nor any of its allies. -/
def c7StrangerTie : List ProposedAction :=
  [⟨.EXPLORER, 0.5⟩, ⟨.OPTIMIZER, 0.5⟩]

unseal Rat.ofScientific Rat.mul Rat.add Rat.sub Rat.inv in
/-- C7 witness: the rotation and selection clauses instantiated on
concrete ties starting at index 0. -/
theorem c7_tiebreaker_rotation_witness :
    2 ≤ (ConsciousLayer.tiedSet c7TieList).length ∧
    ConsciousLayer.resolve_votes 0 c7TieList =
      ⟨some (ConsciousLayer.tiebreaker_choose (ConsciousLayer.orderAt 0)
          (ConsciousLayer.tiedSet c7TieList)), 1,
        some (ConsciousLayer.orderAt 0)⟩ ∧
    (ConsciousLayer.tiedSet c7ClearList).length < 2 ∧
    (ConsciousLayer.resolve_votes 3 c7ClearList).tiebreaker_index = 3 ∧
    (ConsciousLayer.run_resolves 0
        [c7TieList, c7TieList, c7TieList, c7TieList, c7TieList, c7TieList]).1 =
      [some (ConsciousLayer.orderAt 0), some (ConsciousLayer.orderAt 1),
       some (ConsciousLayer.orderAt 2), some (ConsciousLayer.orderAt 3),
       some (ConsciousLayer.orderAt 4), some (ConsciousLayer.orderAt 5)] ∧
    (ConsciousLayer.tiebreaker_choose AspectType.GUARDIAN c7TieList).aspect =
      AspectType.GUARDIAN ∧
    (ConsciousLayer.tiebreaker_choose AspectType.GUARDIAN c7AllyTie).aspect =
      AspectType.ANALYST ∧
    ConsciousLayer.tiebreaker_choose AspectType.GUARDIAN c7StrangerTie =
      c7StrangerTie.headD ⟨AspectType.GUARDIAN, 0⟩ := by
  have main := c7_tiebreaker_rotation
  have htie : 2 ≤ (ConsciousLayer.tiedSet c7TieList).length := by decide
  have hclear : (ConsciousLayer.tiedSet c7ClearList).length < 2 := by decide
  have hstep := main.1 0 c7TieList htie
  have hrun := (main.2.2.1 0 c7TieList c7TieList c7TieList c7TieList c7TieList
    c7TieList htie htie htie htie htie htie).1
  have hown := main.2.2.2.1 AspectType.GUARDIAN c7TieList ⟨.GUARDIAN, 0.5⟩
    (by decide) rfl
  have hally := main.2.2.2.2.1 AspectType.GUARDIAN c7AllyTie AspectType.ANALYST
    (by decide) (by decide)
  have hfirst := main.2.2.2.2.2 AspectType.GUARDIAN c7StrangerTie
    (by decide) (by decide)
  refine ⟨htie, ?_, hclear, main.2.1 3 c7ClearList hclear, ?_, hown.1,
    hally.1, hfirst⟩
  · rw [hstep]
    simp
  · rw [hrun]
    simp

-- ===========================================================================
-- The SubconsciousLayer: similarity-ranked history retrieval
-- ===========================================================================

/-- `class CoreDrive(Enum)`. -/
inductive CoreDrive
  | REDUCE_HARM | UNDERSTAND | IMPROVE
  deriving DecidableEq, Repr

/-- `class EmotionCategory(Enum)`. -/
inductive EmotionCategory
  | FEAR | ANXIETY | URGENCY | CURIOSITY | CONCERN
  | FRUSTRATION | CAUTION | SATISFACTION | CONFIDENCE
  deriving DecidableEq, Repr

/-- `Impetus`, reduced to the fields similarity scoring reads (timestamp,
descriptions, certainty, time pressure and the state snapshot are never
consulted by `_compute_similarity` or `_retrieve_relevant_history`). -/
structure ImpetusM where
  trigger_type : String
  involved_drives : List CoreDrive
  severity : ℚ
  relevant_entities : List DetectedEntity
  deriving DecidableEq, Repr

/-- `IncidentRecord`, reduced to what retrieval reads: its timestamp (kept
to express recency, though scoring never reads it), its impetus, and the
primary emotion of its emotional value (`None` models a record whose
`emotional_value` is `None`, the only case where the source's truthiness
test fails). -/
structure IncidentRecordM where
  timestamp : ℚ
  impetus : ImpetusM
  emotional_value : Option EmotionCategory
  deriving DecidableEq, Repr

namespace SubconsciousLayer

/-- `_predict_emotion_category`. -/
def predict_emotion_category (impetus : ImpetusM) : EmotionCategory :=
  if CoreDrive.REDUCE_HARM ∈ impetus.involved_drives then
    (if impetus.severity > 0.6 then .FEAR else .CONCERN)
  else if CoreDrive.UNDERSTAND ∈ impetus.involved_drives then .ANXIETY
  else .CAUTION

/-- `_compute_similarity` (score accumulation in source order). -/
def compute_similarity (current : ImpetusM) (past_record : IncidentRecordM) : ℚ :=
  let past := past_record.impetus
  let score : ℚ := 0.0
  let score := if current.trigger_type == past.trigger_type
    then score + 0.25 else score
  let current_drives := current.involved_drives.toFinset
  let past_drives := past.involved_drives.toFinset
  let score := if current_drives ≠ ∅ ∧ past_drives ≠ ∅ then
      score + 0.25 * (((current_drives ∩ past_drives).card : ℚ) /
        ((current_drives ∪ past_drives).card : ℚ))
    else score
  let severity_diff := |current.severity - past.severity|
  let severity_similarity := 1.0 - pyMin severity_diff 1.0
  let score := score + 0.20 * severity_similarity
  let current_types := (current.relevant_entities.map
    (fun e => e.entity_type)).toFinset
  let past_types := (past.relevant_entities.map
    (fun e => e.entity_type)).toFinset
  let score := if current_types ≠ ∅ ∧ past_types ≠ ∅ then
      score + 0.20 * (((current_types ∩ past_types).card : ℚ) /
        ((current_types ∪ past_types).card : ℚ))
    else if current_types = ∅ ∧ past_types = ∅ then score + 0.20
    else score
  match past_record.emotional_value with
  | some past_emotion =>
    if past_emotion == predict_emotion_category current then score + 0.10
    else score
  | none => score

/-- `_retrieve_relevant_history` (`max_results = 5`, `min_similarity =
0.2`; Python's stable descending sort modelled by insertion sort with the
matching relation). -/
def retrieve_relevant_history (impetus : ImpetusM)
    (history : List IncidentRecordM) : List IncidentRecordM :=
  if history.isEmpty then []
  else
    let scored := history.map (fun i => (compute_similarity impetus i, i))
    let sortedScored := scored.insertionSort (fun a b => a.1 ≥ b.1)
    (((sortedScored.take 5).filter (fun si => si.1 ≥ 0.2)).map (fun si => si.2))

end SubconsciousLayer

/-- The Jaccard overlap of two finite sets, as the spec words it (for two
empty sets the quotient is 0/0, which Lean reads as 0 — the spec-side
formula is only invoked with at least one set nonempty). -/
def jaccardOverlap {α : Type} [DecidableEq α] (s t : Finset α) : ℚ :=
  ((s ∩ t).card : ℚ) / ((s ∪ t).card : ℚ)

/-- Spec: score = 0.25 x (trigger-type match) + 0.25 x Jaccard overlap of
involved drives + 0.20 x (1 minus the absolute severity difference capped
at 1) + 0.20 x Jaccard overlap of entity types + 0.10 x predicted-emotion
match. -/
def specSimilarity (current : ImpetusM) (r : IncidentRecordM) : ℚ :=
  0.25 * (if current.trigger_type = r.impetus.trigger_type then 1 else 0) +
  0.25 * jaccardOverlap current.involved_drives.toFinset
    r.impetus.involved_drives.toFinset +
  0.20 * (1 - min |current.severity - r.impetus.severity| 1) +
  0.20 * jaccardOverlap
    (current.relevant_entities.map (fun e => e.entity_type)).toFinset
    (r.impetus.relevant_entities.map (fun e => e.entity_type)).toFinset +
  0.10 * (if r.emotional_value =
      some (SubconsciousLayer.predict_emotion_category current) then 1 else 0)

/-- Helper: a Jaccard overlap is nonnegative. -/
theorem jaccardOverlap_nonneg {α : Type} [DecidableEq α] (s t : Finset α) :
    0 ≤ jaccardOverlap s t := by
  unfold jaccardOverlap
  positivity

/-- Helper: a Jaccard overlap is at most 1. -/
theorem jaccardOverlap_le_one {α : Type} [DecidableEq α] (s t : Finset α) :
    jaccardOverlap s t ≤ 1 := by
  unfold jaccardOverlap
  rcases Nat.eq_zero_or_pos ((s ∪ t).card) with h0 | hpos
  · rw [h0]
    norm_num
  · rw [div_le_one (by exact_mod_cast hpos)]
    exact_mod_cast Finset.card_le_card (Finset.inter_subset_union)

/-- Helper: the Jaccard overlap of a nonempty set with itself is 1. -/
theorem jaccardOverlap_self {α : Type} [DecidableEq α] (s : Finset α)
    (h : s ≠ ∅) : jaccardOverlap s s = 1 := by
  unfold jaccardOverlap
  rw [Finset.inter_self, Finset.union_self]
  have hc : (s.card : ℚ) ≠ 0 := by
    exact_mod_cast Finset.card_ne_zero.mpr (Finset.nonempty_iff_ne_empty.mpr h)
  exact div_self hc

/-- Helper: the Jaccard overlap of disjoint sets is 0. -/
theorem jaccardOverlap_disjoint {α : Type} [DecidableEq α] (s t : Finset α)
    (h : s ∩ t = ∅) : jaccardOverlap s t = 0 := by
  unfold jaccardOverlap
  rw [h]
  simp

set_option maxHeartbeats 1600000 in
/-- Helper: whenever both drive sets and both entity-type sets are
nonempty (so every Jaccard overlap in the spec formula is well defined),
the source's accumulated score equals the spec's weighted sum. -/
theorem compute_similarity_eq_spec (current : ImpetusM) (r : IncidentRecordM)
    (h1 : current.involved_drives.toFinset ≠ ∅)
    (h2 : r.impetus.involved_drives.toFinset ≠ ∅)
    (h3 : (current.relevant_entities.map (fun e => e.entity_type)).toFinset ≠ ∅)
    (h4 : (r.impetus.relevant_entities.map (fun e => e.entity_type)).toFinset ≠ ∅) :
    SubconsciousLayer.compute_similarity current r = specSimilarity current r := by
  simp only [SubconsciousLayer.compute_similarity, specSimilarity, jaccardOverlap,
    pyMin, beq_iff_eq, Option.some.injEq]
  cases hm : r.emotional_value with
  | none =>
    simp only [hm]
    split_ifs <;> first | (exfalso; simp_all; done) | ring
  | some e =>
    simp only [hm, Option.some.injEq]
    split_ifs <;> first | (exfalso; simp_all; done) | ring

instance : IsTotal (ℚ × IncidentRecordM) (fun a b => a.1 ≥ b.1) :=
  ⟨fun a b => le_total b.1 a.1⟩

instance : IsTrans (ℚ × IncidentRecordM) (fun a b => a.1 ≥ b.1) :=
  ⟨fun _ _ _ h1 h2 => le_trans h2 h1⟩

/-- Helper: the retrieval output is at most five records, each scoring at
least 0.2, in descending similarity order. -/
theorem retrieve_props (imp : ImpetusM) (hist : List IncidentRecordM) :
    (SubconsciousLayer.retrieve_relevant_history imp hist).length ≤ 5 ∧
    (∀ r ∈ SubconsciousLayer.retrieve_relevant_history imp hist,
      (0.2 : ℚ) ≤ SubconsciousLayer.compute_similarity imp r) ∧
    (SubconsciousLayer.retrieve_relevant_history imp hist).Pairwise
      (fun a b => SubconsciousLayer.compute_similarity imp b ≤
        SubconsciousLayer.compute_similarity imp a) := by
  unfold SubconsciousLayer.retrieve_relevant_history
  cases hE : hist.isEmpty with
  | true => simp
  | false =>
    simp only [Bool.false_eq_true, if_false]
    have hperm : List.Perm
        ((hist.map (fun i =>
          (SubconsciousLayer.compute_similarity imp i, i))).insertionSort
            (fun a b => a.1 ≥ b.1))
        (hist.map (fun i => (SubconsciousLayer.compute_similarity imp i, i))) :=
      List.perm_insertionSort _ _
    have hmem1 : ∀ x ∈ (hist.map (fun i =>
        (SubconsciousLayer.compute_similarity imp i, i))).insertionSort
          (fun a b => a.1 ≥ b.1),
        x.1 = SubconsciousLayer.compute_similarity imp x.2 := by
      intro x hx
      have hx2 := hperm.mem_iff.mp hx
      obtain ⟨i, _, hxi⟩ := List.mem_map.mp hx2
      rw [← hxi]
    have hsorted : ((hist.map (fun i =>
        (SubconsciousLayer.compute_similarity imp i, i))).insertionSort
          (fun a b => a.1 ≥ b.1)).Pairwise (fun a b => a.1 ≥ b.1) :=
      List.sorted_insertionSort _ _
    have hsub : List.Sublist
        ((((hist.map (fun i =>
          (SubconsciousLayer.compute_similarity imp i, i))).insertionSort
            (fun a b => a.1 ≥ b.1)).take 5).filter
              (fun si => si.1 ≥ 0.2))
        ((hist.map (fun i =>
          (SubconsciousLayer.compute_similarity imp i, i))).insertionSort
            (fun a b => a.1 ≥ b.1)) :=
      (List.filter_sublist _).trans (List.take_sublist _ _)
    refine ⟨?_, ?_, ?_⟩
    · rw [List.length_map]
      exact le_trans (List.length_filter_le _ _)
        (le_trans (List.length_take _ _ ▸ min_le_left _ _) (le_refl _))
    · intro r hr
      obtain ⟨pair, hpair, hsnd⟩ := List.mem_map.mp hr
      obtain ⟨hmemtake, hcond⟩ := List.mem_filter.mp hpair
      have hscore : (0.2 : ℚ) ≤ pair.1 := of_decide_eq_true hcond
      have hp1 : pair.1 = SubconsciousLayer.compute_similarity imp pair.2 :=
        hmem1 pair (hsub.mem hpair)
      rw [← hsnd, ← hp1]
      exact hscore
    · rw [List.pairwise_map]
      refine (hsorted.sublist hsub).imp_of_mem ?_
      intro a b ha hb hab
      rw [← hmem1 a (hsub.mem ha), ← hmem1 b (hsub.mem hb)]
      exact hab

/-- Helper: with matching trigger type and identical nonempty drive sets,
the similarity score is at least 0.5 plus the severity term. -/
theorem compute_similarity_lower (current : ImpetusM) (r : IncidentRecordM)
    (htrig : current.trigger_type = r.impetus.trigger_type)
    (hdr : current.involved_drives.toFinset = r.impetus.involved_drives.toFinset)
    (hne : current.involved_drives.toFinset ≠ ∅) :
    0.5 + 0.2 * (1.0 - pyMin |current.severity - r.impetus.severity| 1.0) ≤
      SubconsciousLayer.compute_similarity current r := by
  have hT : (0 : ℚ) ≤
      ((((current.relevant_entities.map (fun e => e.entity_type)).toFinset ∩
        (r.impetus.relevant_entities.map (fun e => e.entity_type)).toFinset).card : ℚ) /
      ((((current.relevant_entities.map (fun e => e.entity_type)).toFinset ∪
        (r.impetus.relevant_entities.map (fun e => e.entity_type)).toFinset).card : ℚ))) := by
    positivity
  simp only [SubconsciousLayer.compute_similarity, beq_iff_eq]
  rw [← hdr]
  simp only [Finset.inter_self, Finset.union_self]
  have hcd : ((current.involved_drives.toFinset.card : ℚ)) ≠ 0 := by
    exact_mod_cast Finset.card_ne_zero.mpr (Finset.nonempty_iff_ne_empty.mpr hne)
  rw [div_self hcd]
  cases hm : r.emotional_value with
  | none =>
    simp only [hm]
    split_ifs <;> first | (exfalso; simp_all; done) | linarith [hT]
  | some e =>
    simp only [hm]
    split_ifs <;> first | (exfalso; simp_all; done) | linarith [hT]

/-- Helper: with a different trigger type and disjoint drive sets, the
similarity score is at most 0.5. -/
theorem compute_similarity_upper (current : ImpetusM) (r : IncidentRecordM)
    (htrig : current.trigger_type ≠ r.impetus.trigger_type)
    (hdis : current.involved_drives.toFinset ∩
      r.impetus.involved_drives.toFinset = ∅) :
    SubconsciousLayer.compute_similarity current r ≤ 0.5 := by
  have hj := jaccardOverlap_le_one
    (current.relevant_entities.map (fun e => e.entity_type)).toFinset
    (r.impetus.relevant_entities.map (fun e => e.entity_type)).toFinset
  rw [jaccardOverlap] at hj
  have hs : (0 : ℚ) ≤ pyMin |current.severity - r.impetus.severity| 1.0 := by
    rw [pyMin]
    exact le_min (abs_nonneg _) (by norm_num)
  simp only [SubconsciousLayer.compute_similarity, beq_iff_eq]
  rw [hdis]
  simp only [Finset.card_empty, Nat.cast_zero, zero_div, mul_zero, add_zero]
  cases hm : r.emotional_value with
  | none =>
    simp only [hm]
    split_ifs <;> first | (exfalso; simp_all; done) | linarith [hj, hs]
  | some e =>
    simp only [hm]
    split_ifs <;> first | (exfalso; simp_all; done) | linarith [hj, hs]

/-- Helper: in a two-record history whose first (older) record scores
strictly higher and passes the threshold, retrieval ranks it first. -/
theorem retrieve_two_head (imp : ImpetusM) (rec1 rec2 : IncidentRecordM)
    (h12 : SubconsciousLayer.compute_similarity imp rec2 <
      SubconsciousLayer.compute_similarity imp rec1)
    (h02 : (0.2 : ℚ) ≤ SubconsciousLayer.compute_similarity imp rec1) :
    (SubconsciousLayer.retrieve_relevant_history imp [rec1, rec2]).head? =
      some rec1 := by
  unfold SubconsciousLayer.retrieve_relevant_history
  simp only [List.isEmpty_cons, Bool.false_eq_true, if_false, List.map_cons,
    List.map_nil, List.insertionSort, List.orderedInsert]
  rw [if_pos (le_of_lt h12 :
    ((SubconsciousLayer.compute_similarity imp rec2, rec2) : ℚ × IncidentRecordM).1 ≤
      (SubconsciousLayer.compute_similarity imp rec1, rec1).1)]
  simp only [List.take, List.filter_cons]
  rw [show (decide (((SubconsciousLayer.compute_similarity imp rec1, rec1) :
      ℚ × IncidentRecordM).1 ≥ 0.2)) = true from decide_eq_true h02]
  simp

/-- C8: history retrieval scores each stored incident by the weighted
formula 0.25 x trigger match + 0.25 x drive Jaccard + 0.20 x severity
closeness + 0.20 x entity-type Jaccard + 0.10 x predicted-emotion match
(stated where both drive sets and both type sets are nonempty, the only
case where the spec's Jaccard overlaps are defined); returns at most 5
records, each scoring at least 0.2, in descending score order; and a past
incident with the same trigger type, the same nonempty drive set and
severity within 1 scores strictly above one with a different trigger type
and disjoint drives — timestamps play no role, so this holds even when
the dissimilar record is the more recent. -/
theorem c8_history_similarity_ranked :
    (∀ (current : ImpetusM) (r : IncidentRecordM),
      current.involved_drives.toFinset ≠ ∅ →
      r.impetus.involved_drives.toFinset ≠ ∅ →
      (current.relevant_entities.map (fun e => e.entity_type)).toFinset ≠ ∅ →
      (r.impetus.relevant_entities.map (fun e => e.entity_type)).toFinset ≠ ∅ →
      SubconsciousLayer.compute_similarity current r = specSimilarity current r) ∧
    (∀ (imp : ImpetusM) (hist : List IncidentRecordM),
      (SubconsciousLayer.retrieve_relevant_history imp hist).length ≤ 5 ∧
      (∀ r ∈ SubconsciousLayer.retrieve_relevant_history imp hist,
        (0.2 : ℚ) ≤ SubconsciousLayer.compute_similarity imp r) ∧
      (SubconsciousLayer.retrieve_relevant_history imp hist).Pairwise
        (fun a b => SubconsciousLayer.compute_similarity imp b ≤
          SubconsciousLayer.compute_similarity imp a)) ∧
    (∀ (imp : ImpetusM) (rec1 rec2 : IncidentRecordM),
      imp.trigger_type = rec1.impetus.trigger_type →
      imp.involved_drives.toFinset = rec1.impetus.involved_drives.toFinset →
      imp.involved_drives.toFinset ≠ ∅ →
      |imp.severity - rec1.impetus.severity| < 1 →
      imp.trigger_type ≠ rec2.impetus.trigger_type →
      imp.involved_drives.toFinset ∩ rec2.impetus.involved_drives.toFinset = ∅ →
      SubconsciousLayer.compute_similarity imp rec2 <
        SubconsciousLayer.compute_similarity imp rec1 ∧
      (SubconsciousLayer.retrieve_relevant_history imp [rec1, rec2]).head? =
        some rec1) := by
  refine ⟨compute_similarity_eq_spec, retrieve_props, ?_⟩
  intro imp rec1 rec2 htr1 hdr1 hne hsev htr2 hdis
  have hlow := compute_similarity_lower imp rec1 htr1 hdr1 hne
  have hup := compute_similarity_upper imp rec2 htr2 hdis
  have habs : |imp.severity - rec1.impetus.severity| ≤ 1 := le_of_lt hsev
  have hminv : pyMin |imp.severity - rec1.impetus.severity| 1.0 =
      |imp.severity - rec1.impetus.severity| := by
    have h10 : (1.0 : ℚ) = 1 := by norm_num
    rw [pyMin, h10]
    exact min_eq_left habs
  rw [hminv] at hlow
  have h12 : SubconsciousLayer.compute_similarity imp rec2 <
      SubconsciousLayer.compute_similarity imp rec1 := by linarith
  exact ⟨h12, retrieve_two_head imp rec1 rec2 h12 (by linarith)⟩

/-- A current impetus: a harm trigger about a detected human. -/
def c8Impetus : ImpetusM :=
  { trigger_type := "harm_detected",
    involved_drives := [.REDUCE_HARM],
    severity := 0.8,
    relevant_entities := [c3Human] }

/-- An older, structurally similar incident (same trigger, same drive,
severity 0.7). -/
def c8Similar : IncidentRecordM :=
  { timestamp := 10,
    impetus :=
      { trigger_type := "harm_detected",
        involved_drives := [.REDUCE_HARM],
        severity := 0.7,
        relevant_entities := [c3Human] },
    emotional_value := some .FEAR }

/-- A newer, dissimilar incident (different trigger, different drive). -/
def c8Dissimilar : IncidentRecordM :=
  { timestamp := 99,
    impetus :=
      { trigger_type := "novelty",
        involved_drives := [.UNDERSTAND],
        severity := 0.8,
        relevant_entities := [c3Human] },
    emotional_value := some .ANXIETY }

unseal Rat.ofScientific Rat.mul Rat.add Rat.sub Rat.inv in
/-- C8 witness: the formula, retrieval shape, and ranking clauses at a
concrete impetus and two concrete records, the dissimilar one more
recent. -/
theorem c8_history_similarity_ranked_witness :
    c8Impetus.involved_drives.toFinset ≠ ∅ ∧
    SubconsciousLayer.compute_similarity c8Impetus c8Similar =
      specSimilarity c8Impetus c8Similar ∧
    (SubconsciousLayer.retrieve_relevant_history c8Impetus
      [c8Similar, c8Dissimilar]).length ≤ 5 ∧
    c8Similar.timestamp < c8Dissimilar.timestamp ∧
    SubconsciousLayer.compute_similarity c8Impetus c8Dissimilar <
      SubconsciousLayer.compute_similarity c8Impetus c8Similar ∧
    (SubconsciousLayer.retrieve_relevant_history c8Impetus
      [c8Similar, c8Dissimilar]).head? = some c8Similar := by
  have main := c8_history_similarity_ranked
  have h1 : c8Impetus.involved_drives.toFinset ≠ ∅ := by decide
  have hrank := main.2.2 c8Impetus c8Similar c8Dissimilar rfl (by decide) h1
    (by norm_num [c8Impetus, c8Similar, abs_lt]) (by decide) (by decide)
  exact ⟨h1,
    main.1 c8Impetus c8Similar h1 (by decide) (by decide) (by decide),
    (main.2.1 c8Impetus [c8Similar, c8Dissimilar]).1,
    by norm_num [c8Similar, c8Dissimilar],
    hrank.1, hrank.2⟩
